import Mathlib

/-!
Shallow embedding of the youtube_scraper repository's multi-source
extraction pipeline, together with proofs about it.

The Python source is translated as follows: machine integers become `Int`
or `Nat`, floats that only carry data (timestamps, durations in seconds,
frame rates) become `Rat`, `Optional[T]` becomes `Option T`, dictionaries
become association lists, and external effects (network calls of the
scraping libraries) become explicit "world" values enumerating the
outcomes the surrounding `try`/`except` blocks distinguish.  Python
truthiness on optional strings/ints is modelled by explicit helpers.
-/

namespace YTS

/-! ## Python-style helpers -/

/-- Python truthiness of an optional string: `None` and `""` are falsy. -/
def truthyOptStr (o : Option String) : Bool :=
  match o with
  | some s => !(s == "")
  | none => false

/-- Python `a or b` on optional strings (`a` wins when truthy). -/
def pyOrOptStr (a b : Option String) : Option String :=
  if truthyOptStr a then a else b

/-- Python `a or b` on optional ints (`None` and `0` are falsy). -/
def pyOrOptInt (a b : Option Int) : Option Int :=
  match a with
  | some v => if v = 0 then b else some v
  | none => b

/-- The whitespace characters of Python's `str.strip` / regex `\s`
(restricted to ASCII, which is all the repository's data uses). -/
def pySpace (c : Char) : Bool :=
  c = ' ' || c = '\t' || c = '\n' || c = '\r' || c = '\x0b' || c = '\x0c'

/-- Word characters of the regex class `\w` (ASCII model). -/
def wordChar (c : Char) : Bool :=
  c.isAlpha || c.isDigit || c = '_'

/-- Characters of the video-id class `[a-zA-Z0-9_-]`. -/
def idChar (c : Char) : Bool :=
  c.isAlpha || c.isDigit || c = '_' || c = '-'

/-- Drop trailing characters satisfying `p`. -/
def dropTrailing (p : Char → Bool) (l : List Char) : List Char :=
  (l.reverse.dropWhile p).reverse

/-- Python `str.strip()` (ASCII whitespace model). -/
def pyStrip (s : String) : String :=
  String.mk (dropTrailing pySpace (s.data.dropWhile pySpace))

/-- Decimal value of a digit list, as Python `int` on a digit string. -/
def natOfDigits (ds : List Char) : Nat :=
  ds.foldl (fun n c => n * 10 + (c.toNat - 48)) 0

/-- Python `str(x)` on an optional string: `None` prints as `"None"`. -/
def errStr (o : Option String) : String :=
  match o with
  | some s => s
  | none => "None"

/-- Python `needle in hay` on strings (substring test). -/
def pyIn (needle hay : String) : Bool :=
  decide (needle.data <:+: hay.data)

/-- Lookup in an association list, as Python `dict.get`. -/
def lookupDict {α : Type} (d : List (String × α)) (k : String) : Option α :=
  (d.find? (fun p => p.1 == k)).map (fun p => p.2)

/-! ## Canonical metadata model (src/backend/models/metadata.py)

`raw_data` (an opaque per-source debugging payload) and `scraped_at`
(a wall-clock timestamp) are omitted: no claim mentions them and they carry
no structure beyond the clock and the untyped source dict. -/

structure Thumbnail where
  url : String
  width : Option Int := none
  height : Option Int := none
deriving DecidableEq, Repr

structure Chapter where
  title : String
  start_time : Rat
  end_time : Option Rat := none
deriving DecidableEq, Repr

structure TranscriptSegment where
  text : String
  start : Rat
  duration : Rat
deriving DecidableEq, Repr

structure Comment where
  author : String
  author_channel_id : Option String := none
  text : String
  likes : Int := 0
  published_at : Option String := none
  reply_count : Int := 0
deriving DecidableEq, Repr

structure ChannelInfo where
  id : String
  name : String
  url : Option String := none
  subscriber_count : Option Int := none
deriving DecidableEq, Repr

structure EngagementMetrics where
  view_count : Option Int := none
  like_count : Option Int := none
  dislike_count : Option Int := none
  comment_count : Option Int := none
deriving DecidableEq, Repr

structure TechnicalDetails where
  duration : Option Int := none
  duration_string : Option String := none
  definition : Option String := none
  dimension : Option String := none
  fps : Option Rat := none
  video_codec : Option String := none
  audio_codec : Option String := none
  filesize : Option Int := none
  bitrate : Option Rat := none
deriving DecidableEq, Repr

structure ContentClassification where
  category : Option String := none
  category_id : Option String := none
  tags : List String := []
  hashtags : List String := []
  is_age_restricted : Bool := false
  is_made_for_kids : Option Bool := none
  is_live : Bool := false
  is_upcoming : Bool := false
deriving DecidableEq, Repr

structure VideoMetadata where
  video_id : String
  title : String
  description : Option String := none
  upload_date : Option String := none
  publish_date : Option String := none
  channel : Option ChannelInfo := none
  engagement : Option EngagementMetrics := none
  technical : Option TechnicalDetails := none
  classification : Option ContentClassification := none
  thumbnails : List Thumbnail := []
  chapters : List Chapter := []
  transcript : List TranscriptSegment := []
  available_languages : List String := []
  comments : List Comment := []
  webpage_url : Option String := none
  embed_url : Option String := none
  is_embeddable : Option Bool := none
  license : Option String := none
  scraper_method : String := "unknown"
deriving DecidableEq, Repr

structure ScraperResult where
  success : Bool
  method : String
  data : Option VideoMetadata := none
  error : Option String := none
  execution_time_ms : Option Rat := none
  fields_extracted : Nat := 0
deriving DecidableEq, Repr

/-! ## extract_video_id (identical in all four modules)

`re.search` over three patterns in fixed order; each pattern is an
alternation of literal markers followed by a capture of exactly 11
characters from `[a-zA-Z0-9_-]`.  `searchPat` scans start positions left
to right; `matchAltsAt` tries the alternatives of one pattern in order at
one position, exactly as the regex engine backtracks. -/

/-- Capture `([a-zA-Z0-9_-]{11})`: the next 11 chars, all from the class. -/
def capture11 (cs : List Char) : Option (List Char) :=
  if (cs.take 11).length = 11 && (cs.take 11).all idChar then some (cs.take 11) else none

/-- Try each alternative marker at this position, in order. -/
def matchAltsAt (alts : List (List Char)) (cs : List Char) : Option (List Char) :=
  match alts with
  | [] => none
  | m :: rest =>
    if m.isPrefixOf cs then
      match capture11 (cs.drop m.length) with
      | some g => some g
      | none => matchAltsAt rest cs
    else matchAltsAt rest cs

/-- Leftmost match: scan start positions from the left (`re.search`). -/
def searchPat (alts : List (List Char)) : List Char → Option (List Char)
  | [] => matchAltsAt alts []
  | c :: cs =>
    match matchAltsAt alts (c :: cs) with
    | some g => some g
    | none => searchPat alts cs

def pat1Alts : List (List Char) := ["v=".data, "/v/".data, "youtu.be/".data]

def patEmbedAlts : List (List Char) := ["embed/".data]

def patShortsAlts : List (List Char) := ["shorts/".data]

def extract_video_id (url : String) : Option String :=
  match searchPat pat1Alts url.data with
  | some g => some (String.mk g)
  | none =>
    match searchPat patEmbedAlts url.data with
    | some g => some (String.mk g)
    | none =>
      match searchPat patShortsAlts url.data with
      | some g => some (String.mk g)
      | none => none

/-! ## extract_hashtags (api_scraper.py, ytdlp_scraper.py, index.py)

`re.findall` with the pattern matching a hash sign followed by `(\w+)`:
non-overlapping matches scanned left to right, returning the list of
capture groups (duplicates kept, order kept). -/

/-- The scanner state is the capture group in progress: `none` while
looking for a hash sign, `some w` (reversed word so far) after one.  A
hash sign with no following word character matches nothing and scanning
resumes, exactly as the regex engine advances. -/
def hashtagsGo : Option (List Char) → List Char → List (List Char)
  | none, [] => []
  | none, c :: rest =>
    if c = '#' then hashtagsGo (some []) rest else hashtagsGo none rest
  | some w, [] => if w.isEmpty then [] else [w.reverse]
  | some w, c :: rest =>
    if wordChar c then hashtagsGo (some (c :: w)) rest
    else if w.isEmpty then
      if c = '#' then hashtagsGo (some []) rest else hashtagsGo none rest
    else
      w.reverse :: (if c = '#' then hashtagsGo (some []) rest else hashtagsGo none rest)

def extract_hashtags (text : String) : List String :=
  if text = "" then []
  else (hashtagsGo none text.data).map String.mk

/-! ## parse_duration / format_duration (api_scraper.py) -/

/-- One optional component `(?:(\d+)X)?` of the duration regex: a maximal
nonempty digit run immediately followed by the letter `suf` is consumed and
converted; otherwise nothing is consumed and the component counts 0.
(The regex backtracking on `(\d+)X` never splits the digit run, since the
character after a shorter run is still a digit, not `X`.) -/
def parseCompD (suf : Char) (cs : List Char) : Nat × List Char :=
  let ds := cs.takeWhile Char.isDigit
  match cs.drop ds.length with
  | c :: rest => if !ds.isEmpty && c = suf then (natOfDigits ds, rest) else (0, cs)
  | [] => (0, cs)

/-- `parse_duration`: `None`/empty input gives `None`; `re.match` anchors
the pattern at the start, so any input not beginning with the literal `PT`
gives `None`; otherwise the three optional components are summed. -/
def parse_duration (input : Option String) : Option Nat :=
  match input with
  | none => none
  | some s =>
    if s.data = [] then none
    else
      match s.data with
      | 'P' :: 'T' :: rest =>
        let ph := parseCompD 'H' rest
        let pm := parseCompD 'M' ph.2
        let ps := parseCompD 'S' pm.2
        some (ph.1 * 3600 + pm.1 * 60 + ps.1)
      | _ => none

/-- Zero-padded two-digit rendering, as the format spec `{n:02d}`. -/
def pad2 (n : Nat) : String :=
  if n < 10 then "0" ++ toString n else toString n

def format_duration (seconds : Option Nat) : Option String :=
  match seconds with
  | none => none
  | some n =>
    let hours := n / 3600
    let remainder := n % 3600
    let minutes := remainder / 60
    let secs := remainder % 60
    if hours > 0 then some (toString hours ++ ":" ++ pad2 minutes ++ ":" ++ pad2 secs)
    else some (toString minutes ++ ":" ++ pad2 secs)

/-! ## parse_chapters_from_description (api_scraper.py)

The scan is `re.findall` with the pattern
`(?:^|\n)\s*(?:(\d{1,2}):)?(\d{1,2}):(\d{2})\s*[-–—]?\s*(.+?)(?=\n|$)`.
A candidate therefore starts at the beginning of the string or right after
a newline; the leading `\s*` absorbs whitespace *including newlines*, so a
timestamp's title can come from a later line than the timestamp itself.
The timestamp is an optional 1-2 digit hours group with a colon, a 1-2
digit minutes group, a colon and exactly two digit seconds; after it come
optional whitespace (again newline-crossing), an optional single dash,
optional whitespace, and the lazy title group, which stops at the next
newline or the end of the string (the match ends at that zero-width
lookahead, where the next scan resumes).  Backtracking is modelled
faithfully: a digit run is never split (one digit then a colon and two
digits then a colon exclude each other), the hours group is dropped when
the rest of the pattern cannot follow it, and when everything after an
optional dash is newline whitespace the greedy `\s*` groups hand the lazy
title group its last possible character.  A candidate whose stripped title
is empty or a single character is dropped, exactly as the Python loop
does. -/

/-- `(\d{1,2}):` with regex backtracking: two digits then a colon, or one
digit then a colon. -/
def digits12Colon (cs : List Char) : Option (Nat × List Char) :=
  match cs with
  | a :: ':' :: rest =>
    if a.isDigit then some (a.toNat - 48, rest) else none
  | a :: b :: ':' :: rest =>
    if a.isDigit && b.isDigit then some ((a.toNat - 48) * 10 + (b.toNat - 48), rest)
    else none
  | _ => none

/-- `(\d{2})`: exactly two digits. -/
def secs2 (cs : List Char) : Option (Nat × List Char) :=
  match cs with
  | a :: b :: rest =>
    if a.isDigit && b.isDigit then some ((a.toNat - 48) * 10 + (b.toNat - 48), rest)
    else none
  | _ => none

/-- The timestamp with its hours group: `(\d{1,2}):(\d{1,2}):(\d{2})`, in
seconds. -/
def tsWithHours (cs : List Char) : Option (Nat × List Char) :=
  match digits12Colon cs with
  | some (h, r1) =>
    match digits12Colon r1 with
    | some (m, r2) =>
      match secs2 r2 with
      | some (s, r3) => some (h * 3600 + m * 60 + s, r3)
      | none => none
    | none => none
  | none => none

/-- The timestamp without the hours group: `(\d{1,2}):(\d{2})`, in
seconds. -/
def tsNoHours (cs : List Char) : Option (Nat × List Char) :=
  match digits12Colon cs with
  | some (m, r1) =>
    match secs2 r1 with
    | some (s, r2) => some (m * 60 + s, r2)
    | none => none
  | none => none

def dashChar (c : Char) : Bool :=
  c = '-' || c = '–' || c = '—'

/-- The suffix starting at the last character that is not a newline, if
any: the character the greedy `\s*` groups hand to the lazy title group
when nothing but whitespace follows. -/
def lastNonNlSuffix (w : List Char) : Option (List Char) :=
  match w with
  | [] => none
  | c :: rest =>
    match lastNonNlSuffix rest with
    | some suf => some suf
    | none => if c = '\n' then none else some (c :: rest)

/-- `\s*[-–—]?\s*(.+?)(?=\n|$)` after the timestamp: the raw title group
and the remainder of the input after the match (beginning at the lookahead
newline, if any).  Fails only when no character is available for the lazy
title group, which makes the engine backtrack into the timestamp. -/
def tailMatch (r : List Char) : Option (List Char × List Char) :=
  let w1 := r.takeWhile pySpace
  let rest1 := r.dropWhile pySpace
  match rest1 with
  | c :: tl =>
    if dashChar c then
      let w2 := tl.takeWhile pySpace
      let rest2 := tl.dropWhile pySpace
      match rest2 with
      | _ :: _ =>
        let title := rest2.takeWhile (fun x => x != '\n')
        some (title, rest2.drop title.length)
      | [] =>
        match lastNonNlSuffix w2 with
        | some suf =>
          let title := suf.takeWhile (fun x => x != '\n')
          some (title, suf.drop title.length)
        | none =>
          let title := rest1.takeWhile (fun x => x != '\n')
          some (title, rest1.drop title.length)
    else
      let title := rest1.takeWhile (fun x => x != '\n')
      some (title, rest1.drop title.length)
  | [] =>
    match lastNonNlSuffix w1 with
    | some suf =>
      let title := suf.takeWhile (fun x => x != '\n')
      some (title, suf.drop title.length)
    | none => none

/-- One anchored match attempt: leading `\s*`, the timestamp with the
hours group first and without it when the rest of the pattern fails after
it, then the separator-and-title tail.  Yields the start time in seconds,
the raw title group and the remainder of the input after the match. -/
def bodyMatch (cs : List Char) : Option (Nat × List Char × List Char) :=
  let s0 := cs.dropWhile pySpace
  match tsWithHours s0 with
  | some (t, r) =>
    match tailMatch r with
    | some (title, rem) => some (t, title, rem)
    | none =>
      match tsNoHours s0 with
      | some (t2, r2) =>
        match tailMatch r2 with
        | some (title, rem) => some (t2, title, rem)
        | none => none
      | none => none
  | none =>
    match tsNoHours s0 with
    | some (t2, r2) =>
      match tailMatch r2 with
      | some (title, rem) => some (t2, title, rem)
      | none => none
    | none => none

/-- The `re.findall` walk after the first position: a new match must start
right after a newline; after a successful match the walk resumes at the
remainder (whose head, when present, is the lookahead newline, available
as the next match's anchor).  The fuel argument bounds the walk by the
input length; every step consumes at least one character, so `cs.length`
suffices. -/
def scanAux : Nat → List Char → List (Nat × List Char)
  | 0, _ => []
  | _, [] => []
  | fuel + 1, c :: rest =>
    if c = '\n' then
      match bodyMatch rest with
      | some (t, title, rem) => (t, title) :: scanAux fuel rem
      | none => scanAux fuel rest
    else scanAux fuel rest

/-- All matches of the chapter pattern, in scan order: the `^` alternative
at the start of the string, then newline-anchored matches. -/
def findMatches (cs : List Char) : List (Nat × List Char) :=
  match bodyMatch cs with
  | some (t, title, rem) => (t, title) :: scanAux cs.length rem
  | none => scanAux cs.length cs

/-- The collection loop over the matches: strip the raw title and keep the
candidate only when the stripped title has at least two characters; the
end time is created unset. -/
def matchChapters (cs : List Char) : List Chapter :=
  (findMatches cs).filterMap (fun m =>
    let title := String.mk (dropTrailing pySpace (m.2.dropWhile pySpace))
    if 1 < title.length then
      some { title := title, start_time := (m.1 : Rat), end_time := none }
    else none)

/-- The back-fill loop: `chapters[i].end_time = chapters[i+1].start_time`
for every `i` except the last. -/
def chaptersBackfill : List Chapter → List Chapter
  | [] => []
  | [c] => [c]
  | c1 :: c2 :: rest => { c1 with end_time := some c2.start_time } :: chaptersBackfill (c2 :: rest)

def parse_chapters_from_description (description : String) : List Chapter :=
  if description = "" then []
  else chaptersBackfill (matchChapters description.data)

/-- Split a character list at newlines, as Python `str.split` with a
newline separator (the line list is never empty). -/
def splitLines (cs : List Char) : List (List Char) :=
  match cs with
  | [] => [[]]
  | c :: rest =>
    if c = '\n' then [] :: splitLines rest
    else
      match splitLines rest with
      | l :: ls => (c :: l) :: ls
      | [] => [[c]]

/-- C8's per-line reading of the timestamp, written from the claim's
words (`[H:]M:SS`): the hours variant when it matches, the short variant
otherwise. -/
def claimTimestampAt (cs : List Char) : Option (Nat × List Char) :=
  match tsWithHours cs with
  | some r => some r
  | none => tsNoHours cs

/-- C8's reading of the title, written from the claim's words: the rest
of the line after the timestamp and an optional separator, stripped. -/
def claimLineTitle (rest : List Char) : String :=
  let t1 := rest.dropWhile pySpace
  let t2 :=
    match t1 with
    | c :: r => if dashChar c then r.dropWhile pySpace else t1
    | [] => []
  String.mk (dropTrailing pySpace t2)

/-- C8's per-line candidate, written from the claim's words: a line
starting with a timestamp followed by a title, kept only when the title
has at least two characters. -/
def claimLineChapter (line : List Char) : Option Chapter :=
  match claimTimestampAt (line.dropWhile pySpace) with
  | none => none
  | some (t, rest) =>
    if 1 < (claimLineTitle rest).length then
      some { title := claimLineTitle rest, start_time := (t : Rat), end_time := none }
    else none

/-- C8's line-by-line collection, written from the claim's words, to be
compared with `parse_chapters_from_description` above. -/
def claimParseChapters (description : String) : List Chapter :=
  if description = "" then []
  else chaptersBackfill ((splitLines description.data).filterMap claimLineChapter)

/-! ## yt-dlp scraper (src/backend/scrapers/ytdlp_scraper.py)

The raw `info` dict returned by the extraction library is modelled as a
structure holding exactly the keys `_parse_info` reads; every field is
optional, matching `info.get`. -/

structure RawThumb where
  url : Option String := none
  width : Option Int := none
  height : Option Int := none
deriving DecidableEq, Repr

structure RawChapterIn where
  title : Option String := none
  start_time : Option Rat := none
  end_time : Option Rat := none
deriving DecidableEq, Repr

structure RawSubSeg where
  utf8 : Option String := none
deriving DecidableEq, Repr

structure RawSubEvent where
  segs : Option (List RawSubSeg) := none
  tStartMs : Option Rat := none
  dDurationMs : Option Rat := none
deriving DecidableEq, Repr

structure RawJson3 where
  events : Option (List RawSubEvent) := none
deriving DecidableEq, Repr

/-- One entry of a subtitle-format list; `payload` is the `data` key
(`'data' in sub_format` is `payload.isSome`). -/
structure RawSubFormat where
  ext : Option String := none
  payload : Option RawJson3 := none
deriving DecidableEq, Repr

structure RawYtComment where
  author : Option String := none
  author_id : Option String := none
  text : Option String := none
  like_count : Option Int := none
  timestamp : Option String := none
  reply_count : Option Int := none
deriving DecidableEq, Repr

structure YtdlpInfo where
  thumbnails : List RawThumb := []
  chapters : Option (List RawChapterIn) := none
  subtitles : Option (List (String × List RawSubFormat)) := none
  automatic_captions : Option (List (String × List RawSubFormat)) := none
  comments : Option (List RawYtComment) := none
  description : Option String := none
  tags : Option (List String) := none
  title : Option String := none
  upload_date : Option String := none
  release_date : Option String := none
  channel_id : Option String := none
  channel : Option String := none
  uploader : Option String := none
  channel_url : Option String := none
  uploader_url : Option String := none
  channel_follower_count : Option Int := none
  view_count : Option Int := none
  like_count : Option Int := none
  dislike_count : Option Int := none
  comment_count : Option Int := none
  duration : Option Int := none
  duration_string : Option String := none
  height : Option Int := none
  is_3d : Option Bool := none
  fps : Option Rat := none
  vcodec : Option String := none
  acodec : Option String := none
  filesize : Option Int := none
  filesize_approx : Option Int := none
  tbr : Option Rat := none
  categories : Option (List String) := none
  age_limit : Option Int := none
  is_live : Option Bool := none
  live_status : Option String := none
  webpage_url : Option String := none
  playable_in_embed : Option Bool := none
  license : Option String := none
deriving DecidableEq, Repr

/-- `{**automatic_captions, **subtitles}` looked up at one key:
manual subtitles override automatic captions. -/
def allSubsLookup (info : YtdlpInfo) (k : String) : Option (List RawSubFormat) :=
  match lookupDict (info.subtitles.getD []) k with
  | some v => some v
  | none => lookupDict (info.automatic_captions.getD []) k

/-- The concatenation `''.join(seg.get('utf8', '') for seg in event['segs'])`. -/
def segText (segs : List RawSubSeg) : String :=
  String.join (segs.map (fun s => s.utf8.getD ""))

/-- Segments contributed by one caption event. -/
def eventSegments (ev : RawSubEvent) : List TranscriptSegment :=
  match ev.segs with
  | none => []
  | some segs =>
    let text := pyStrip (segText segs)
    if text ≠ "" then
      [{ text := text, start := ev.tStartMs.getD 0 / 1000, duration := ev.dDurationMs.getD 0 / 1000 }]
    else []

/-- Segments of one subtitle format (only `json3` formats carrying data). -/
def formatSegments (f : RawSubFormat) : List TranscriptSegment :=
  if f.ext = some "json3" && f.payload.isSome then
    (((f.payload.map (fun d => d.events.getD [])).getD []).map eventSegments).flatten
  else []

/-- The subtitle loop of `_parse_info`: the first language of the priority
list present in the merged map is decoded (the `break` sits inside the
`if`, so only that language is ever processed). -/
def ytdlpTranscript (info : YtdlpInfo) : List TranscriptSegment :=
  match (["en", "en-US", "en-GB", "en-orig"].find? fun l => (allSubsLookup info l).isSome) with
  | none => []
  | some l => (((allSubsLookup info l).getD []).map formatSegments).flatten

/-- `list(set(subtitles.keys()) | set(automatic_captions.keys()))`; the
Python set iteration order is unspecified, modelled as first-occurrence
dedup of the concatenated key lists. -/
def ytdlpAvailableLanguages (info : YtdlpInfo) : List String :=
  (((info.subtitles.getD []).map Prod.fst) ++ ((info.automatic_captions.getD []).map Prod.fst)).dedup

def mkYtComment (c : RawYtComment) : Comment :=
  { author := c.author.getD "Unknown"
    author_channel_id := c.author_id
    text := c.text.getD ""
    likes := (c.like_count.getD 0)
    published_at := c.timestamp
    reply_count := (c.reply_count.getD 0) }

/-- `YtdlpScraper._parse_info`. -/
def ytdlp_parse_info (info : YtdlpInfo) (video_id : String) : VideoMetadata :=
  let thumbnails := (info.thumbnails.filter fun t => truthyOptStr t.url).map fun t =>
    { url := t.url.getD "", width := t.width, height := t.height : Thumbnail }
  let chapters := (info.chapters.getD []).map fun c =>
    { title := c.title.getD "Untitled", start_time := c.start_time.getD 0, end_time := c.end_time : Chapter }
  let transcript := ytdlpTranscript info
  let available_languages := ytdlpAvailableLanguages info
  let comments := (info.comments.getD []).map mkYtComment
  let description := info.description.getD ""
  let tags := info.tags.getD []
  let hashtags := extract_hashtags description ++ extract_hashtags (info.title.getD "")
  { video_id := video_id
    title := info.title.getD ""
    description := some description
    upload_date := info.upload_date
    publish_date := pyOrOptStr info.release_date info.upload_date
    channel := some
      { id := info.channel_id.getD ""
        name := if truthyOptStr info.channel then info.channel.getD "" else info.uploader.getD ""
        url := pyOrOptStr info.channel_url info.uploader_url
        subscriber_count := info.channel_follower_count }
    engagement := some
      { view_count := info.view_count
        like_count := info.like_count
        dislike_count := info.dislike_count
        comment_count := info.comment_count }
    technical := some
      { duration := info.duration
        duration_string := info.duration_string
        definition := some (if 720 ≤ info.height.getD 0 then "hd" else "sd")
        dimension := some (if info.is_3d.getD false then "3d" else "2d")
        fps := info.fps
        video_codec := info.vcodec
        audio_codec := info.acodec
        filesize := pyOrOptInt info.filesize info.filesize_approx
        bitrate := info.tbr }
    classification := some
      { category := match info.categories with | some (c :: _) => some c | _ => none
        category_id := none
        tags := tags
        hashtags := hashtags.dedup
        is_age_restricted := 0 < info.age_limit.getD 0
        is_made_for_kids := none
        is_live := info.is_live.getD false
        is_upcoming := info.live_status = some "is_upcoming" }
    thumbnails := thumbnails
    chapters := chapters
    transcript := transcript
    available_languages := available_languages
    comments := comments.take 100
    webpage_url := info.webpage_url
    embed_url := some ("https://www.youtube.com/embed/" ++ video_id)
    is_embeddable := info.playable_in_embed
    license := info.license
    scraper_method := "yt-dlp" }

/-- `YtdlpScraper._count_fields`. -/
def ytdlp_count_fields (m : VideoMetadata) : Nat :=
  (if m.title ≠ "" then 1 else 0) +
  (if truthyOptStr m.description then 1 else 0) +
  (if truthyOptStr m.upload_date then 1 else 0) +
  (if m.channel.isSome then 4 else 0) +
  (match m.engagement with
   | some e =>
     (if e.view_count.isSome then 1 else 0) +
     (if e.like_count.isSome then 1 else 0) +
     (if e.comment_count.isSome then 1 else 0)
   | none => 0) +
  (if m.technical.isSome then 5 else 0) +
  (match m.classification with
   | some c => c.tags.length + c.hashtags.length + 2
   | none => 0) +
  m.thumbnails.length + m.chapters.length + m.transcript.length + m.comments.length

/-- Outcome of the one external call `ydl.extract_info` inside the `try`
block of `YtdlpScraper.scrape`. -/
inductive YtdlpWorld where
  | downloadErr (msg : String)
  | otherErr (msg : String)
  | infoNone
  | info (i : YtdlpInfo)
deriving DecidableEq, Repr

/-- `YtdlpScraper.scrape`.  `elapsedMs` stands for the rounded elapsed
wall-clock time recorded at the return point. -/
def YtdlpScraper_scrape (url : String) (w : YtdlpWorld) (elapsedMs : Rat) : ScraperResult :=
  match extract_video_id url with
  | none =>
    { success := false, method := "yt-dlp", error := some "Could not extract video ID from URL" }
  | some video_id =>
    match w with
    | .downloadErr msg =>
      { success := false, method := "yt-dlp", error := some ("Download error: " ++ msg),
        execution_time_ms := some elapsedMs }
    | .otherErr msg =>
      { success := false, method := "yt-dlp", error := some ("Unexpected error: " ++ msg),
        execution_time_ms := some elapsedMs }
    | .infoNone =>
      { success := false, method := "yt-dlp", error := some "Failed to extract video information" }
    | .info i =>
      let metadata := ytdlp_parse_info i video_id
      { success := true, method := "yt-dlp", data := some metadata,
        execution_time_ms := some elapsedMs, fields_extracted := ytdlp_count_fields metadata }

/-! ## Official-API scraper (src/backend/scrapers/api_scraper.py) -/

def CATEGORY_MAP : List (String × String) :=
  [("1", "Film & Animation"), ("2", "Autos & Vehicles"), ("10", "Music"),
   ("15", "Pets & Animals"), ("17", "Sports"), ("18", "Short Movies"),
   ("19", "Travel & Events"), ("20", "Gaming"), ("21", "Videoblogging"),
   ("22", "People & Blogs"), ("23", "Comedy"), ("24", "Entertainment"),
   ("25", "News & Politics"), ("26", "Howto & Style"), ("27", "Education"),
   ("28", "Science & Technology"), ("29", "Nonprofits & Activism"),
   ("30", "Movies"), ("31", "Anime/Animation"), ("32", "Action/Adventure"),
   ("33", "Classics"), ("34", "Comedy"), ("35", "Documentary"),
   ("36", "Drama"), ("37", "Family"), ("38", "Foreign"), ("39", "Horror"),
   ("40", "Sci-Fi/Fantasy"), ("41", "Thriller"), ("42", "Shorts"),
   ("43", "Shows"), ("44", "Trailers")]

structure RawThumbEntry where
  url : Option String := none
  width : Option Int := none
  height : Option Int := none
deriving DecidableEq, Repr

structure RawSnippet where
  title : Option String := none
  description : Option String := none
  publishedAt : Option String := none
  channelId : Option String := none
  channelTitle : Option String := none
  thumbnails : List (String × RawThumbEntry) := []
  tags : Option (List String) := none
  categoryId : Option String := none
deriving DecidableEq, Repr

/-- `contentDetails`; `ytRating` stands for
`contentDetails.get('contentRating', {}).get('ytRating')`. -/
structure RawContentDetails where
  duration : Option String := none
  definition : Option String := none
  dimension : Option String := none
  ytRating : Option String := none
deriving DecidableEq, Repr

structure RawStatistics where
  viewCount : Option String := none
  likeCount : Option String := none
  commentCount : Option String := none
deriving DecidableEq, Repr

structure RawStatus where
  embeddable : Option Bool := none
  license : Option String := none
  madeForKids : Option Bool := none
deriving DecidableEq, Repr

structure RawLiveDetails where
  activeLiveChatId : Option String := none
  scheduledStartTime : Option String := none
deriving DecidableEq, Repr

structure RawVideo where
  snippet : RawSnippet := {}
  contentDetails : RawContentDetails := {}
  statistics : RawStatistics := {}
  status : RawStatus := {}
  liveStreamingDetails : RawLiveDetails := {}
deriving DecidableEq, Repr

structure RawChanSnippet where
  title : Option String := none
deriving DecidableEq, Repr

structure RawChanStats where
  subscriberCount : Option String := none
deriving DecidableEq, Repr

structure RawChannel where
  id : Option String := none
  snippet : RawChanSnippet := {}
  statistics : RawChanStats := {}
deriving DecidableEq, Repr

/-- `item['snippet']['topLevelComment']['snippet']`; `authorChannelValue`
stands for `snippet.get('authorChannelId', {}).get('value')`. -/
structure RawTopComment where
  authorDisplayName : Option String := none
  authorChannelValue : Option String := none
  textDisplay : Option String := none
  likeCount : Option Int := none
  publishedAt : Option String := none
deriving DecidableEq, Repr

structure RawCommentThread where
  top : RawTopComment := {}
  totalReplyCount : Option Int := none
deriving DecidableEq, Repr

/-- `int(x) if x else None` on the API's decimal-string counters. -/
def strToIntOpt (o : Option String) : Option Int :=
  match o with
  | some s => if s ≠ "" then some (Int.ofNat (natOfDigits s.data)) else none
  | none => none

def mkApiComment (item : RawCommentThread) : Comment :=
  { author := item.top.authorDisplayName.getD "Unknown"
    author_channel_id := item.top.authorChannelValue
    text := item.top.textDisplay.getD ""
    likes := item.top.likeCount.getD 0
    published_at := item.top.publishedAt
    reply_count := item.totalReplyCount.getD 0 }

/-- `YouTubeAPIScraper._parse_response`. -/
def api_parse_response (video_id : String) (v : RawVideo) (channel_data : Option RawChannel)
    (comments : List Comment) : VideoMetadata :=
  let snippet := v.snippet
  let thumbnails := snippet.thumbnails.map fun p =>
    { url := p.2.url.getD "", width := p.2.width, height := p.2.height : Thumbnail }
  let description := snippet.description.getD ""
  let chapters := parse_chapters_from_description description
  let tags := snippet.tags.getD []
  let hashtags := extract_hashtags description ++ extract_hashtags (snippet.title.getD "")
  let duration_seconds := parse_duration v.contentDetails.duration
  let channel_info :=
    match channel_data with
    | some cd =>
      { id := cd.id.getD (snippet.channelId.getD "")
        name := cd.snippet.title.getD (snippet.channelTitle.getD "")
        url := some ("https://www.youtube.com/channel/" ++ cd.id.getD "")
        subscriber_count := strToIntOpt cd.statistics.subscriberCount : ChannelInfo }
    | none =>
      { id := snippet.channelId.getD ""
        name := snippet.channelTitle.getD ""
        url := some ("https://www.youtube.com/channel/" ++ snippet.channelId.getD "")
        subscriber_count := none }
  let category_id := snippet.categoryId
  let is_live := v.liveStreamingDetails.activeLiveChatId.isSome
  let is_upcoming := v.liveStreamingDetails.scheduledStartTime.isSome && !is_live
  { video_id := video_id
    title := snippet.title.getD ""
    description := some description
    upload_date :=
      match snippet.publishedAt with
      | some s =>
        if s ≠ "" then some (String.mk ((s.data.takeWhile (· ≠ 'T')).filter (· ≠ '-'))) else none
      | none => none
    publish_date := snippet.publishedAt
    channel := some channel_info
    engagement := some
      { view_count := strToIntOpt v.statistics.viewCount
        like_count := strToIntOpt v.statistics.likeCount
        dislike_count := none
        comment_count := strToIntOpt v.statistics.commentCount }
    technical := some
      { duration := duration_seconds.map Int.ofNat
        duration_string := format_duration duration_seconds
        definition := some (v.contentDetails.definition.getD "sd")
        dimension := some (v.contentDetails.dimension.getD "2d")
        fps := none
        video_codec := none
        audio_codec := none
        filesize := none
        bitrate := none }
    classification := some
      { category := match category_id with | some cid => lookupDict CATEGORY_MAP cid | none => none
        category_id := category_id
        tags := tags
        hashtags := hashtags.dedup
        is_age_restricted := v.contentDetails.ytRating = some "ytAgeRestricted"
        is_made_for_kids := v.status.madeForKids
        is_live := is_live
        is_upcoming := is_upcoming }
    thumbnails := thumbnails
    chapters := chapters
    transcript := []
    available_languages := []
    comments := comments
    webpage_url := some ("https://www.youtube.com/watch?v=" ++ video_id)
    embed_url := some ("https://www.youtube.com/embed/" ++ video_id)
    is_embeddable := v.status.embeddable
    license := v.status.license
    scraper_method := "YouTube API v3" }

/-- `YouTubeAPIScraper._count_fields`. -/
def api_count_fields (m : VideoMetadata) : Nat :=
  (if m.title ≠ "" then 1 else 0) +
  (if truthyOptStr m.description then 1 else 0) +
  (if truthyOptStr m.upload_date then 1 else 0) +
  (if m.channel.isSome then 4 else 0) +
  (match m.engagement with
   | some e =>
     (if e.view_count.isSome then 1 else 0) +
     (if e.like_count.isSome then 1 else 0) +
     (if e.comment_count.isSome then 1 else 0)
   | none => 0) +
  (if m.technical.isSome then 3 else 0) +
  (match m.classification with
   | some c => c.tags.length + c.hashtags.length + 3
   | none => 0) +
  m.thumbnails.length + m.chapters.length + m.comments.length

/-- Outcome of the secondary `channels().list` call. -/
inductive ChanWorld where
  | raiseHttp (reason : String)
  | raiseOther (msg : String)
  | ok (items : List RawChannel)
deriving DecidableEq, Repr

/-- Outcome of the optional `commentThreads().list` call; an `HttpError`
there is swallowed (`except HttpError: pass`). -/
inductive ComWorld where
  | raiseHttp
  | raiseOther (msg : String)
  | ok (items : List RawCommentThread)
deriving DecidableEq, Repr

/-- Outcome of the primary `videos().list` call (and, when it returns, of
the calls that follow it). -/
inductive ApiWorld where
  | raiseHttp (reason : String)
  | raiseOther (msg : String)
  | ok (items : List RawVideo) (chan : ChanWorld) (com : ComWorld)
deriving DecidableEq, Repr

/-- One outbound request of the official-API scraper, with the request
parameters the code passes. -/
inductive ApiCall where
  | videosList (video_id : String)
  | channelsList (channel_id : String)
  | commentThreadsList (video_id : String) (maxResults : Nat) (order : String)
deriving DecidableEq, Repr

/-- The successful tail of `YouTubeAPIScraper.scrape`: parse and wrap. -/
def apiSuccess (video_id : String) (video_data : RawVideo) (channel_data : Option RawChannel)
    (comments : List Comment) (elapsedMs : Rat) (calls : List ApiCall) :
    ScraperResult × List ApiCall :=
  let metadata := api_parse_response video_id video_data channel_data comments
  ({ success := true, method := "YouTube API v3", data := some metadata,
     execution_time_ms := some elapsedMs, fields_extracted := api_count_fields metadata },
   calls)

/-- The comment-fetching phase of `YouTubeAPIScraper.scrape`: issued only
when requested; an `HttpError` there is swallowed and leaves the comment
list empty; any other exception propagates to the outer handler. -/
def apiWithComments (video_id : String) (video_data : RawVideo) (include_comments : Bool)
    (comW : ComWorld) (elapsedMs : Rat) (channel_data : Option RawChannel)
    (calls : List ApiCall) : ScraperResult × List ApiCall :=
  if include_comments then
    let calls2 := calls ++ [.commentThreadsList video_id 100 "relevance"]
    match comW with
    | .raiseHttp => apiSuccess video_id video_data channel_data [] elapsedMs calls2
    | .raiseOther msg =>
      ({ success := false, method := "YouTube API v3", error := some ("Unexpected error: " ++ msg),
         execution_time_ms := some elapsedMs }, calls2)
    | .ok comItems =>
      apiSuccess video_id video_data channel_data (comItems.map mkApiComment) elapsedMs calls2
  else apiSuccess video_id video_data channel_data [] elapsedMs calls

/-- `YouTubeAPIScraper.scrape`, returning the envelope together with the
trace of network calls issued. -/
def YouTubeAPIScraper_scrape (api_key : Option String) (url : String) (include_comments : Bool)
    (w : ApiWorld) (elapsedMs : Rat) : ScraperResult × List ApiCall :=
  if !truthyOptStr api_key then
    ({ success := false, method := "YouTube API v3",
       error := some "YouTube API key not configured. Set YOUTUBE_API_KEY environment variable." }, [])
  else
    match extract_video_id url with
    | none =>
      ({ success := false, method := "YouTube API v3",
         error := some "Could not extract video ID from URL" }, [])
    | some video_id =>
      match w with
      | .raiseHttp reason =>
        ({ success := false, method := "YouTube API v3", error := some ("API Error: " ++ reason),
           execution_time_ms := some elapsedMs }, [.videosList video_id])
      | .raiseOther msg =>
        ({ success := false, method := "YouTube API v3", error := some ("Unexpected error: " ++ msg),
           execution_time_ms := some elapsedMs }, [.videosList video_id])
      | .ok items chanW comW =>
        match items with
        | [] =>
          ({ success := false, method := "YouTube API v3",
             error := some "Video not found or is private" }, [.videosList video_id])
        | video_data :: _ =>
          let channel_id := video_data.snippet.channelId
          if truthyOptStr channel_id then
            let calls := [.videosList video_id, .channelsList (channel_id.getD "")]
            match chanW with
            | .raiseHttp reason =>
              ({ success := false, method := "YouTube API v3",
                 error := some ("API Error: " ++ reason),
                 execution_time_ms := some elapsedMs }, calls)
            | .raiseOther msg =>
              ({ success := false, method := "YouTube API v3",
                 error := some ("Unexpected error: " ++ msg),
                 execution_time_ms := some elapsedMs }, calls)
            | .ok chItems =>
              apiWithComments video_id video_data include_comments comW elapsedMs
                chItems.head? calls
          else
            apiWithComments video_id video_data include_comments comW elapsedMs none
              [.videosList video_id]

/-! ## Transcript scraper (src/backend/scrapers/transcript_scraper.py)

The external transcript library is driven through a cascade of `find` /
`fetch` calls whose individual failures (`NoTranscriptFound`) are caught
inside the method; the world abstracts that cascade into its net outcome:
the language list enumerated up front, and the final `transcript_data`
(`none` when the cascade left it falsy).  The exceptions the method's own
`except` clauses distinguish are separate world constructors. -/

structure RawTransSeg where
  text : String
  start : Rat
  duration : Rat
deriving DecidableEq, Repr

inductive TsWorld where
  | raiseDisabled
  | raiseUnavailable
  | raiseOther (msg : String)
  | listed (available : List String) (found : Option (List RawTransSeg))
deriving DecidableEq, Repr

/-- `TranscriptScraper.scrape`. -/
def TranscriptScraper_scrape (url : String) (w : TsWorld) (elapsedMs : Rat) : ScraperResult :=
  match extract_video_id url with
  | none =>
    { success := false, method := "youtube-transcript-api",
      error := some "Could not extract video ID from URL" }
  | some video_id =>
    match w with
    | .raiseDisabled =>
      { success := false, method := "youtube-transcript-api",
        error := some "Transcripts are disabled for this video",
        execution_time_ms := some elapsedMs }
    | .raiseUnavailable =>
      { success := false, method := "youtube-transcript-api",
        error := some "Video is unavailable", execution_time_ms := some elapsedMs }
    | .raiseOther msg =>
      { success := false, method := "youtube-transcript-api",
        error := some ("Unexpected error: " ++ msg), execution_time_ms := some elapsedMs }
    | .listed available found =>
      match found with
      | none =>
        { success := false, method := "youtube-transcript-api",
          error := some "No transcripts available for this video",
          execution_time_ms := some elapsedMs }
      | some items =>
        let segments := items.map fun i =>
          { text := i.text, start := i.start, duration := i.duration : TranscriptSegment }
        let metadata : VideoMetadata :=
          { video_id := video_id, title := "", description := none
            transcript := segments, available_languages := available
            webpage_url := some ("https://www.youtube.com/watch?v=" ++ video_id)
            scraper_method := "youtube-transcript-api" }
        { success := true, method := "youtube-transcript-api", data := some metadata,
          execution_time_ms := some elapsedMs,
          fields_extracted := segments.length + available.length + 2 }

/-! ## Local Whisper transcriber (src/backend/scrapers/ai_transcriber.py) -/

/-- One segment of a Whisper result; `finish` is the segment's `end` key
(`end` is reserved in Lean). -/
structure WhisperSeg where
  text : String
  start : Rat
  finish : Rat
deriving DecidableEq, Repr

structure WhisperOut where
  segments : List WhisperSeg := []
  text : String := ""
  language : Option String := none
deriving DecidableEq, Repr

structure DownloadedInfo where
  title : Option String := none
  description : Option String := none
deriving DecidableEq, Repr

/-- Outcome of `AITranscriber.scrape`'s environment: unavailable (cloud
environment or missing model), an exception inside the `try`, or the
downloaded info and Whisper result. -/
inductive AiWorld where
  | notAvailable
  | availRaise (msg : String)
  | availOk (video_info : DownloadedInfo) (result : WhisperOut)
deriving DecidableEq, Repr

/-- `AITranscriber.scrape`. -/
def AITranscriber_scrape (url : String) (w : AiWorld) (elapsedMs : Rat) : ScraperResult :=
  match w with
  | .notAvailable =>
    { success := false, method := "ai-whisper",
      error := some "AI transcription is not available in cloud environments",
      execution_time_ms := some elapsedMs }
  | .availRaise msg =>
    match extract_video_id url with
    | none =>
      { success := false, method := "ai-whisper",
        error := some "Could not extract video ID from URL",
        execution_time_ms := some elapsedMs }
    | some _ =>
      { success := false, method := "ai-whisper",
        error := some ("AI transcription failed: " ++ msg),
        execution_time_ms := some elapsedMs }
  | .availOk video_info result =>
    match extract_video_id url with
    | none =>
      { success := false, method := "ai-whisper",
        error := some "Could not extract video ID from URL",
        execution_time_ms := some elapsedMs }
    | some video_id =>
      let segments := result.segments.map fun s =>
        { text := pyStrip s.text, start := s.start, duration := s.finish - s.start : TranscriptSegment }
      let detected_language := result.language.getD "unknown"
      let metadata : VideoMetadata :=
        { video_id := video_id
          title := video_info.title.getD ""
          description := video_info.description
          transcript := segments
          available_languages := [detected_language]
          webpage_url := some ("https://www.youtube.com/watch?v=" ++ video_id)
          scraper_method := "ai-whisper" }
      { success := true, method := "ai-whisper", data := some metadata,
        execution_time_ms := some elapsedMs, fields_extracted := segments.length + 2 }

/-! ## yt-dlp transcript extractor (src/api/index.py, YtdlpTranscriptExtractor)

The requested-subtitles / URL-fetch cascade is abstracted into its net
`transcript_data`, exactly as `TsWorld` abstracts the library cascade. -/

inductive YtxWorld where
  | raiseErr (msg : String)
  | infoNone
  | infoOk (title : Option String) (transcript_data : List RawTransSeg)
      (subLangs autoLangs : List String)
deriving DecidableEq, Repr

/-- `YtdlpTranscriptExtractor.extract`. -/
def YtdlpTranscriptExtractor_extract (url : String) (w : YtxWorld) (elapsedMs : Rat) :
    ScraperResult :=
  match extract_video_id url with
  | none =>
    { success := false, method := "yt-dlp-transcript", error := some "Could not extract video ID" }
  | some video_id =>
    match w with
    | .raiseErr msg =>
      { success := false, method := "yt-dlp-transcript", error := some ("Error: " ++ msg),
        execution_time_ms := some elapsedMs }
    | .infoNone =>
      { success := false, method := "yt-dlp-transcript",
        error := some "Failed to extract video info" }
    | .infoOk title transcript_data subLangs autoLangs =>
      if transcript_data.isEmpty then
        { success := false, method := "yt-dlp-transcript",
          error := some "No transcript found via yt-dlp",
          execution_time_ms := some elapsedMs }
      else
        let segments := (transcript_data.filter fun s => s.text ≠ "").map fun s =>
          { text := s.text, start := s.start, duration := s.duration : TranscriptSegment }
        let available_languages := (subLangs ++ autoLangs).dedup
        let metadata : VideoMetadata :=
          { video_id := video_id, title := title.getD ""
            transcript := segments, available_languages := available_languages
            webpage_url := some ("https://www.youtube.com/watch?v=" ++ video_id)
            scraper_method := "yt-dlp-transcript" }
        { success := true, method := "yt-dlp-transcript", data := some metadata,
          execution_time_ms := some elapsedMs,
          fields_extracted := segments.length + available_languages.length + 2 }

/-! ## Hosted Whisper transcriber (src/api/index.py, OpenAIWhisperTranscriber) -/

/-- Outcome of the hosted transcription: audio download returned `None`,
an exception inside the `try`, or `_transcribe_audio`'s return value
(`none` modelling a falsy `transcript_data`). -/
inductive OwWorld where
  | audioNone
  | raiseErr (msg : String)
  | transcribed (result : Option WhisperOut)
deriving DecidableEq, Repr

/-- `OpenAIWhisperTranscriber.scrape`. -/
def OpenAIWhisperTranscriber_scrape (api_key : Option String) (url : String) (w : OwWorld)
    (elapsedMs : Rat) : ScraperResult :=
  if !truthyOptStr api_key then
    { success := false, method := "openai-whisper",
      error := some "OPENAI_API_KEY not configured. Add it to your environment variables." }
  else
    match extract_video_id url with
    | none =>
      { success := false, method := "openai-whisper",
        error := some "Could not extract video ID from URL" }
    | some video_id =>
      match w with
      | .audioNone =>
        { success := false, method := "openai-whisper",
          error := some "Failed to download audio from YouTube",
          execution_time_ms := some elapsedMs }
      | .raiseErr msg =>
        { success := false, method := "openai-whisper", error := some ("Error: " ++ msg),
          execution_time_ms := some elapsedMs }
      | .transcribed none =>
        { success := false, method := "openai-whisper", error := some "Transcription failed",
          execution_time_ms := some elapsedMs }
      | .transcribed (some result) =>
        let transcript_segments := (result.segments.filter fun s => pyStrip s.text ≠ "").map fun s =>
          { text := pyStrip s.text, start := s.start, duration := s.finish - s.start :
            TranscriptSegment }
        let full_text := result.text
        let segments :=
          if transcript_segments.isEmpty && full_text ≠ "" then
            [{ text := full_text, start := 0, duration := 0 : TranscriptSegment }]
          else transcript_segments
        let metadata : VideoMetadata :=
          { video_id := video_id, title := ""
            transcript := segments
            webpage_url := some ("https://www.youtube.com/watch?v=" ++ video_id)
            scraper_method := "openai-whisper" }
        { success := true, method := "openai-whisper", data := some metadata,
          execution_time_ms := some elapsedMs, fields_extracted := segments.length + 2 }

/-! ## Comparator (src/backend/main.py, generate_comparison_summary) -/

/-- A `best_for` entry carrying a winning count. -/
structure BestCount where
  method : String
  count : Nat
deriving DecidableEq, Repr

/-- Overwrite-or-append update of a method row, as assignment into a
Python dict. -/
def assocSet (l : List (String × Bool)) (k : String) (v : Bool) : List (String × Bool) :=
  match l with
  | [] => [(k, v)]
  | (k0, v0) :: rest => if k0 = k then (k, v) :: rest else (k0, v0) :: assocSet rest k v

/-- The per-field availability table: one method-to-presence row per field
category, in the dict's insertion order. -/
structure FieldAvail where
  title : List (String × Bool) := []
  description : List (String × Bool) := []
  view_count : List (String × Bool) := []
  like_count : List (String × Bool) := []
  comment_count : List (String × Bool) := []
  transcript : List (String × Bool) := []
  chapters : List (String × Bool) := []
  tags : List (String × Bool) := []
  thumbnails : List (String × Bool) := []
  channel_subscribers : List (String × Bool) := []
  technical_details : List (String × Bool) := []
  comments : List (String × Bool) := []
deriving DecidableEq, Repr

/-- One iteration of the field-availability loop (skips failed envelopes
and envelopes without data). -/
def updateFieldAvail (fa : FieldAvail) (r : ScraperResult) : FieldAvail :=
  match r.data with
  | none => fa
  | some d =>
    if !r.success then fa
    else
      let m := r.method
      { title := assocSet fa.title m (d.title ≠ "")
        description := assocSet fa.description m (truthyOptStr d.description)
        view_count :=
          match d.engagement with
          | some e => assocSet fa.view_count m e.view_count.isSome
          | none => fa.view_count
        like_count :=
          match d.engagement with
          | some e => assocSet fa.like_count m e.like_count.isSome
          | none => fa.like_count
        comment_count :=
          match d.engagement with
          | some e => assocSet fa.comment_count m e.comment_count.isSome
          | none => fa.comment_count
        transcript := assocSet fa.transcript m (0 < d.transcript.length)
        chapters := assocSet fa.chapters m (0 < d.chapters.length)
        tags :=
          match d.classification with
          | some c => assocSet fa.tags m (0 < c.tags.length)
          | none => fa.tags
        thumbnails := assocSet fa.thumbnails m (0 < d.thumbnails.length)
        channel_subscribers :=
          match d.channel with
          | some c => assocSet fa.channel_subscribers m c.subscriber_count.isSome
          | none => fa.channel_subscribers
        technical_details :=
          match d.technical with
          | some t =>
            assocSet fa.technical_details m
              (t.fps.isSome || t.video_codec.isSome || t.bitrate.isSome)
          | none => fa.technical_details
        comments := assocSet fa.comments m (0 < d.comments.length) }

/-- The `best_for` accumulator: transcript entry, technical entry, tags
entry (the three dict keys the loop may fill). -/
structure BestFor where
  transcript : Option BestCount := none
  technical_details : Option String := none
  tags : Option BestCount := none
deriving DecidableEq, Repr

/-- Transcript length of an envelope's payload (0 when absent). -/
def transcriptCount (r : ScraperResult) : Nat :=
  match r.data with
  | some d => d.transcript.length
  | none => 0

/-- Tag-list length of an envelope's payload (0 when absent). -/
def tagsCount (r : ScraperResult) : Nat :=
  match r.data with
  | some d => match d.classification with | some c => c.tags.length | none => 0
  | none => 0

/-- One iteration of the `best_for` loop. -/
def updateBestFor (b : BestFor) (r : ScraperResult) : BestFor :=
  match r.data with
  | none => b
  | some d =>
    if !r.success then b
    else
      let b1 :=
        if 0 < d.transcript.length then
          match b.transcript with
          | none => { b with transcript := some ⟨r.method, d.transcript.length⟩ }
          | some cur =>
            if cur.count < d.transcript.length then
              { b with transcript := some ⟨r.method, d.transcript.length⟩ }
            else b
        else b
      let b2 :=
        match d.technical with
        | some t => if t.fps.isSome then { b1 with technical_details := some r.method } else b1
        | none => b1
      match d.classification with
      | some c =>
        if 0 < c.tags.length then
          match b2.tags with
          | none => { b2 with tags := some ⟨r.method, c.tags.length⟩ }
          | some cur =>
            if cur.count < c.tags.length then { b2 with tags := some ⟨r.method, c.tags.length⟩ }
            else b2
        else b2
      | none => b2

structure Summary where
  methods_succeeded : List String
  methods_failed : List (String × Option String)
  field_comparison : FieldAvail
  best_for : BestFor
  total_unique_fields : Nat
deriving DecidableEq, Repr

/-- Whether a field row records any method as populating the field. -/
def rowAny (row : List (String × Bool)) : Bool := row.any fun p => p.2

/-- `generate_comparison_summary`. -/
def generate_comparison_summary (results : List ScraperResult) : Summary :=
  let methods_succeeded :=
    results.foldl (fun acc r => if r.success then acc ++ [r.method] else acc) []
  let methods_failed :=
    results.foldl (fun acc r => if r.success then acc else acc ++ [(r.method, r.error)]) []
  let field_comparison := results.foldl updateFieldAvail {}
  let best_for := results.foldl updateBestFor {}
  let rows := [field_comparison.title, field_comparison.description,
    field_comparison.view_count, field_comparison.like_count, field_comparison.comment_count,
    field_comparison.transcript, field_comparison.chapters, field_comparison.tags,
    field_comparison.thumbnails, field_comparison.channel_subscribers,
    field_comparison.technical_details, field_comparison.comments]
  { methods_succeeded := methods_succeeded
    methods_failed := methods_failed
    field_comparison := field_comparison
    best_for := best_for
    total_unique_fields := (rows.filter rowAny).length }

/-! ## Combined transcript endpoint (src/api/index.py, scrape_transcript)

The endpoint runs the yt-dlp transcript extractor, and on failure the
transcript-library scraper; the two envelopes those produce are the
function's inputs here (the fallback envelope is only inspected when the
first failed, which the pure model reflects by ignoring it otherwise). -/

/-- The blocked-origin detection: `"bot" in str(result.error).lower() or
"blocking" in str(fallback_result.error).lower()`. -/
def is_cloud_block (e1 e2 : Option String) : Bool :=
  pyIn "bot" (errStr e1).toLower || pyIn "blocking" (errStr e2).toLower

def cloudBlockMsg : String :=
  "YouTube is blocking requests from this cloud server. Transcript extraction works when running locally. Try: git clone https://github.com/creepyblues/youtube_scraper && cd youtube_scraper && pip install -r requirements.txt && uvicorn backend.main:app"

/-- The combined error text of the two failed strategies. -/
def combinedErr (e1 e2 : Option String) : String :=
  "yt-dlp: " ++ errStr e1 ++ " | youtube-transcript-api: " ++ errStr e2

/-- `scrape_transcript` as a function of the two strategy envelopes. -/
def scrape_transcript (result fallback_result : ScraperResult) : ScraperResult :=
  if result.success then result
  else if fallback_result.success then fallback_result
  else
    let error_msg :=
      if is_cloud_block result.error fallback_result.error then cloudBlockMsg
      else combinedErr result.error fallback_result.error
    { success := false
      method := "transcript (combined)"
      error := some error_msg
      execution_time_ms :=
        some ((result.execution_time_ms.getD 0) + (fallback_result.execution_time_ms.getD 0)) }

/-! ## Spec-side predicates and definitions -/

/-- The Result Envelope invariant: the payload is present exactly on
success and the error message exactly on failure. -/
def envOk (r : ScraperResult) : Prop :=
  r.data.isSome = r.success ∧ r.error.isSome = !r.success

/-- A valid 11-character video id occurring in `url` right after one of
the five supported markers. -/
def IsCandidate (url : String) (v : String) : Prop :=
  v.data.length = 11 ∧ v.data.all idChar = true ∧
    ∃ m ∈ ["v=".data, "/v/".data, "youtu.be/".data, "embed/".data, "shorts/".data],
      ∃ a b, url.data = a ++ m ++ v.data ++ b

def HasCandidate (url : String) : Prop := ∃ v, IsCandidate url v

/-- Written from the spec's words for the comparator claim: among the
successful envelopes carrying a nonempty transcript, the one with the
strictly largest segment count wins and ties go to the envelope evaluated
first. -/
def bestTranscriptSpec : List ScraperResult → Option BestCount
  | [] => none
  | r :: rs =>
    let eligible := r.success && r.data.isSome && decide (0 < transcriptCount r)
    match bestTranscriptSpec rs with
    | none => if eligible then some ⟨r.method, transcriptCount r⟩ else none
    | some b =>
      if eligible && decide (b.count ≤ transcriptCount r) then some ⟨r.method, transcriptCount r⟩
      else some b

/-- The transcript component of one `best_for` loop iteration, in
isolation (the technical and tags updates do not touch it). -/
def tStep (t : Option BestCount) (r : ScraperResult) : Option BestCount :=
  match r.data with
  | none => t
  | some d =>
    if !r.success then t
    else if 0 < d.transcript.length then
      match t with
      | none => some ⟨r.method, d.transcript.length⟩
      | some cur =>
        if cur.count < d.transcript.length then some ⟨r.method, d.transcript.length⟩ else t
    else t

/-- Merging an already-accumulated best entry with the best of the
remaining envelopes: the later entry wins only when strictly larger. -/
def mergeAcc : Option BestCount → Option BestCount → Option BestCount
  | t0, none => t0
  | none, some c => some c
  | some b, some c => if b.count < c.count then some c else some b

/-- A minimal transcript segment for concrete comparator inputs. -/
def exSeg : TranscriptSegment := { text := "t", start := 0, duration := 0 }

/-- The claim's comparator example, envelope A: success, 50 segments. -/
def exEnvA : ScraperResult :=
  { success := true, method := "A",
    data := some { video_id := "aaaaaaaaaaa", title := "",
                   transcript := List.replicate 50 exSeg } }

/-- The claim's comparator example, envelope B: success, 10 segments. -/
def exEnvB : ScraperResult :=
  { success := true, method := "B",
    data := some { video_id := "bbbbbbbbbbb", title := "",
                   transcript := List.replicate 10 exSeg } }

/-- The claim's comparator example, envelope C: failed. -/
def exEnvC : ScraperResult :=
  { success := false, method := "C", error := some "failed to fetch" }

/-- The rendering of one optional duration component. -/
def optComp : Option (List Char) → Char → List Char
  | none, _ => []
  | some d, suf => d ++ [suf]

/-- A `PT#H#M#S` string with each component present or absent. -/
def ptRender (h m s : Option (List Char)) : String :=
  String.mk ('P' :: 'T' :: (optComp h 'H' ++ optComp m 'M' ++ optComp s 'S'))

/-- The seconds contributed by one optional component (absent counts 0). -/
def compVal : Option (List Char) → Nat
  | none => 0
  | some d => natOfDigits d

/-- A present component is a nonempty digit run. -/
def DigitsOk : Option (List Char) → Prop
  | none => True
  | some d => d ≠ [] ∧ ∀ x ∈ d, x.isDigit = true

/-! ## Theorems -/

/-- Helper: the comment phase always yields a well-formed envelope. -/
theorem envOk_apiWithComments (vid : String) (vd : RawVideo) (ic : Bool) (comW : ComWorld)
    (e : Rat) (cd : Option RawChannel) (calls : List ApiCall) :
    envOk (apiWithComments vid vd ic comW e cd calls).1 := by
  unfold apiWithComments apiSuccess
  split
  · cases comW <;> exact ⟨rfl, rfl⟩
  · exact ⟨rfl, rfl⟩

/-- Helper: the comment phase adds at most the single `commentThreads`
call, always with `maxResults=100` and relevance order. -/
theorem mem_apiWithComments_trace (c : ApiCall) (vid : String) (vd : RawVideo) (ic : Bool)
    (comW : ComWorld) (e : Rat) (cd : Option RawChannel) (calls : List ApiCall)
    (h : c ∈ (apiWithComments vid vd ic comW e cd calls).2) :
    c ∈ calls ∨ c = .commentThreadsList vid 100 "relevance" := by
  have ht : (apiWithComments vid vd ic comW e cd calls).2 = calls ∨
      (apiWithComments vid vd ic comW e cd calls).2 =
        calls ++ [.commentThreadsList vid 100 "relevance"] := by
    unfold apiWithComments apiSuccess
    split
    · cases comW <;> exact Or.inr rfl
    · exact Or.inl rfl
  rcases ht with ht | ht <;> rw [ht] at h
  · exact Or.inl h
  · rcases List.mem_append.mp h with h2 | h2
    · exact Or.inl h2
    · exact Or.inr (List.mem_singleton.mp h2)

/-- C1.  Every scrape entry point of the six extractors (yt-dlp,
YouTube API v3, youtube-transcript-api, yt-dlp-transcript, ai-whisper,
openai-whisper) returns an envelope in which the payload is non-null
exactly when `success` is true and the error message is non-null exactly
when `success` is false, for every input URL and every outcome of the
external calls. -/
theorem C1_result_envelope_invariant :
    (∀ url w e, envOk (YtdlpScraper_scrape url w e)) ∧
    (∀ key url ic w e, envOk (YouTubeAPIScraper_scrape key url ic w e).1) ∧
    (∀ url w e, envOk (TranscriptScraper_scrape url w e)) ∧
    (∀ url w e, envOk (YtdlpTranscriptExtractor_extract url w e)) ∧
    (∀ url w e, envOk (AITranscriber_scrape url w e)) ∧
    (∀ key url w e, envOk (OpenAIWhisperTranscriber_scrape key url w e)) := by
  refine ⟨?_, ?_, ?_, ?_, ?_, ?_⟩
  · intro url w e
    unfold YtdlpScraper_scrape
    cases extract_video_id url with
    | none => exact ⟨rfl, rfl⟩
    | some vid => cases w <;> exact ⟨rfl, rfl⟩
  · intro key url ic w e
    unfold YouTubeAPIScraper_scrape
    split
    · exact ⟨rfl, rfl⟩
    · cases extract_video_id url with
      | none => exact ⟨rfl, rfl⟩
      | some vid =>
        cases w with
        | raiseHttp reason => exact ⟨rfl, rfl⟩
        | raiseOther msg => exact ⟨rfl, rfl⟩
        | ok items chanW comW =>
          cases items with
          | nil => exact ⟨rfl, rfl⟩
          | cons video_data rest =>
            simp only
            split
            · cases chanW with
              | raiseHttp reason => exact ⟨rfl, rfl⟩
              | raiseOther msg => exact ⟨rfl, rfl⟩
              | ok chItems => exact envOk_apiWithComments ..
            · exact envOk_apiWithComments ..
  · intro url w e
    unfold TranscriptScraper_scrape
    cases extract_video_id url with
    | none => exact ⟨rfl, rfl⟩
    | some vid =>
      cases w with
      | raiseDisabled => exact ⟨rfl, rfl⟩
      | raiseUnavailable => exact ⟨rfl, rfl⟩
      | raiseOther msg => exact ⟨rfl, rfl⟩
      | listed available found => cases found <;> exact ⟨rfl, rfl⟩
  · intro url w e
    unfold YtdlpTranscriptExtractor_extract
    cases extract_video_id url with
    | none => exact ⟨rfl, rfl⟩
    | some vid =>
      cases w with
      | raiseErr msg => exact ⟨rfl, rfl⟩
      | infoNone => exact ⟨rfl, rfl⟩
      | infoOk title tdata subLangs autoLangs =>
        simp only
        split <;> exact ⟨rfl, rfl⟩
  · intro url w e
    unfold AITranscriber_scrape
    cases w with
    | notAvailable => exact ⟨rfl, rfl⟩
    | availRaise msg => cases extract_video_id url <;> exact ⟨rfl, rfl⟩
    | availOk vi res => cases extract_video_id url <;> exact ⟨rfl, rfl⟩
  · intro key url w e
    unfold OpenAIWhisperTranscriber_scrape
    split
    · exact ⟨rfl, rfl⟩
    · cases extract_video_id url with
      | none => exact ⟨rfl, rfl⟩
      | some vid =>
        cases w with
        | audioNone => exact ⟨rfl, rfl⟩
        | raiseErr msg => exact ⟨rfl, rfl⟩
        | transcribed res => cases res <;> exact ⟨rfl, rfl⟩

/-- C4.  With a falsy API key (absent or empty), the official-API scrape
returns, for every URL, option flag and outcome of the world, the failed
envelope naming the missing `YOUTUBE_API_KEY` configuration, and the
network-call trace is empty. -/
theorem C4_missing_key_fails_fast_no_network :
    (∀ key url ic w e, truthyOptStr key = false →
      YouTubeAPIScraper_scrape key url ic w e =
        ({ success := false, method := "YouTube API v3",
           error := some "YouTube API key not configured. Set YOUTUBE_API_KEY environment variable." },
         [])) ∧
    pyIn "YOUTUBE_API_KEY"
      "YouTube API key not configured. Set YOUTUBE_API_KEY environment variable." = true := by
  constructor
  · intro key url ic w e h
    unfold YouTubeAPIScraper_scrape
    rw [h]
    rfl
  · decide

/-- C5.  When both transcript strategies fail, the combined endpoint
returns one failed envelope tagged `transcript (combined)`; its message is
the blocked-origin message with the locally-runnable workaround exactly
when the code's blocked-origin detection fires on the two underlying error
texts, and otherwise the combined message, which contains both underlying
error texts as substrings. -/
theorem C5_combined_transcript_errors :
    (∀ r1 r2 : ScraperResult, r1.success = false → r2.success = false →
      (scrape_transcript r1 r2).success = false ∧
      (scrape_transcript r1 r2).method = "transcript (combined)" ∧
      (scrape_transcript r1 r2).data = none ∧
      (is_cloud_block r1.error r2.error = false →
        (scrape_transcript r1 r2).error = some (combinedErr r1.error r2.error)) ∧
      (is_cloud_block r1.error r2.error = true →
        (scrape_transcript r1 r2).error = some cloudBlockMsg)) ∧
    (∀ e1 e2, pyIn (errStr e1) (combinedErr e1 e2) = true ∧
      pyIn (errStr e2) (combinedErr e1 e2) = true) := by
  constructor
  · intro r1 r2 h1 h2
    have hs : scrape_transcript r1 r2 =
        { success := false
          method := "transcript (combined)"
          error := some (if is_cloud_block r1.error r2.error then cloudBlockMsg
            else combinedErr r1.error r2.error)
          execution_time_ms :=
            some ((r1.execution_time_ms.getD 0) + (r2.execution_time_ms.getD 0)) } := by
      unfold scrape_transcript
      rw [h1, h2]
      rfl
    refine ⟨by rw [hs], by rw [hs], by rw [hs], ?_, ?_⟩
    · intro hb
      rw [hs, hb]
      rfl
    · intro hb
      rw [hs, hb]
      rfl
  · intro e1 e2
    constructor
    · simp only [pyIn, decide_eq_true_eq, combinedErr]
      exact ⟨"yt-dlp: ".data, (" | youtube-transcript-api: " ++ errStr e2).data,
        by simp [String.data_append, List.append_assoc]⟩
    · simp only [pyIn, decide_eq_true_eq, combinedErr]
      exact ⟨("yt-dlp: " ++ errStr e1 ++ " | youtube-transcript-api: ").data, [],
        by simp [String.data_append, List.append_assoc]⟩

/-- C9 counterexample.  `extract_hashtags` returns a list with duplicates
kept, not a duplicate-free set: on `"#a #b #a"` it returns three entries,
`["a", "b", "a"]`. -/
theorem C9_counterexample_duplicates_kept :
    extract_hashtags "#a #b #a" = ["a", "b", "a"] ∧
    ¬ (extract_hashtags "#a #b #a").Nodup ∧
    (extract_hashtags "#a #b #a").length ≠ 2 := by decide

/-- C9 amended.  `extract_hashtags` returns the `#word` tokens as a list
in order of occurrence with duplicates kept (deduplication to a set
happens at the call sites): on `"#a #b #a"` the list is `["a", "b", "a"]`
and its underlying set is exactly `{a, b}`; empty input yields the empty
list; case is not normalized. -/
theorem C9_amended_hashtag_list :
    extract_hashtags "#a #b #a" = ["a", "b", "a"] ∧
    (extract_hashtags "#a #b #a").toFinset = {"a", "b"} ∧
    extract_hashtags "" = [] ∧
    extract_hashtags "#A #a" = ["A", "a"] := by decide

/-- C2 counterexample.  The official-API scraper does not truncate the
comment list it builds: a `commentThreads` payload carrying 101 comment
records yields a successful envelope whose metadata holds 101 comments,
more than the claimed cap of 100 (the cap there is only the `maxResults`
request parameter). -/
theorem C2_counterexample_api_comments_uncapped :
    ((YouTubeAPIScraper_scrape (some "key") "https://youtu.be/dQw4w9WgXcQ" true
        (.ok [{}] (.ok []) (.ok (List.replicate 101 {}))) 0).1.success = true) ∧
    ((YouTubeAPIScraper_scrape (some "key") "https://youtu.be/dQw4w9WgXcQ" true
        (.ok [{}] (.ok []) (.ok (List.replicate 101 {}))) 0).1.data.map
      (fun m => m.comments.length) = some 101) ∧
    ¬ (101 ≤ 100) := by decide

/-- C2 amended.  The yt-dlp extractor caps the comment list at 100 entries
whatever the raw payload supplies; the official-API extractor does not
truncate in code — its parse stores the built comment list unchanged — and
instead relies on requesting at most 100 threads: every `commentThreads`
request it ever issues carries `maxResults=100` (and relevance order). -/
theorem C2_amended_comment_cap :
    (∀ info vid, (ytdlp_parse_info info vid).comments.length ≤ 100) ∧
    (∀ vid v cd comments, (api_parse_response vid v cd comments).comments = comments) ∧
    (∀ key url ic w e vid n ord,
      ApiCall.commentThreadsList vid n ord ∈ (YouTubeAPIScraper_scrape key url ic w e).2 →
        n = 100 ∧ ord = "relevance") := by
  refine ⟨?_, ?_, ?_⟩
  · intro info vid
    show ((((info.comments.getD []).map mkYtComment)).take 100).length ≤ 100
    exact List.length_take_le 100 _
  · intro vid v cd comments
    rfl
  · intro key url ic w e vid n ord h
    unfold YouTubeAPIScraper_scrape at h
    repeat' split at h
    all_goals try simp at h
    all_goals try split at h
    all_goals try simp at h
    all_goals
      rcases mem_apiWithComments_trace _ _ _ _ _ _ _ _ h with h2 | h2 <;> simp at h2
    all_goals exact ⟨h2.2.1, h2.2.2⟩

/-- Helper: `takeWhile` runs through a satisfying block. -/
theorem takeWhile_all_append (p : Char → Bool) (d r : List Char) (hd : ∀ x ∈ d, p x = true) :
    (d ++ r).takeWhile p = d ++ r.takeWhile p := by
  induction d with
  | nil => simp
  | cons a t ih =>
    have ha : p a = true := hd a (by simp)
    simp [List.takeWhile_cons, ha, ih fun x hx => hd x (by simp [hx])]

/-- Helper: the component matcher consumes a digit run closed by its
suffix letter. -/
theorem parseCompD_hit (suf : Char) (d rest : List Char) (h1 : d ≠ [])
    (h2 : ∀ x ∈ d, x.isDigit = true) (h3 : suf.isDigit = false) :
    parseCompD suf (d ++ suf :: rest) = (natOfDigits d, rest) := by
  unfold parseCompD
  have ht : (d ++ suf :: rest).takeWhile Char.isDigit = d := by
    rw [takeWhile_all_append Char.isDigit d (suf :: rest) h2]
    simp [List.takeWhile_cons, h3]
  simp only [ht, List.drop_left]
  simp [h1]

/-- Helper: the component matcher consumes nothing when the digit run is
closed by a different letter. -/
theorem parseCompD_miss (suf other : Char) (d rest : List Char)
    (h2 : ∀ x ∈ d, x.isDigit = true) (h3 : other.isDigit = false) (h4 : other ≠ suf) :
    parseCompD suf (d ++ other :: rest) = (0, d ++ other :: rest) := by
  unfold parseCompD
  have ht : (d ++ other :: rest).takeWhile Char.isDigit = d := by
    rw [takeWhile_all_append Char.isDigit d (other :: rest) h2]
    simp [List.takeWhile_cons, h3]
  simp only [ht, List.drop_left]
  simp [h4]

/-- Helper: the component matcher consumes nothing on digit-free input. -/
theorem parseCompD_noDigits (suf : Char) (cs : List Char)
    (h : ∀ x ∈ cs, x.isDigit = false) : parseCompD suf cs = (0, cs) := by
  unfold parseCompD
  have ht : cs.takeWhile Char.isDigit = [] := by
    cases cs with
    | nil => rfl
    | cons c r => simp [List.takeWhile_cons, h c (by simp)]
  simp only [ht, List.length_nil, List.drop_zero]
  cases cs with
  | nil => rfl
  | cons c r => simp

/-- Helper: `parse_duration` on a `PT`-prefixed character list is the sum
of the three sequential component matches. -/
theorem parse_duration_PT (rest : List Char) :
    parse_duration (some (String.mk ('P' :: 'T' :: rest))) =
      some ((parseCompD 'H' rest).1 * 3600 + (parseCompD 'M' (parseCompD 'H' rest).2).1 * 60 +
        (parseCompD 'S' (parseCompD 'M' (parseCompD 'H' rest).2).2).1) := rfl

/-- Helper: `re.match` anchors the pattern, so without the `PT` prefix the
result is `None`. -/
theorem parse_duration_not_PT (s : String) (hnp : ¬ (['P', 'T'] <+: s.data)) :
    parse_duration (some s) = none := by
  show (if s.data = [] then none
        else match s.data with
          | 'P' :: 'T' :: rest =>
            let ph := parseCompD 'H' rest
            let pm := parseCompD 'M' ph.2
            let ps := parseCompD 'S' pm.2
            some (ph.1 * 3600 + pm.1 * 60 + ps.1)
          | _ => none) = none
  split
  · rfl
  · split
    · rename_i rest heq
      exact absurd ⟨rest, by simp [heq]⟩ hnp
    · rfl

/-- C7.  `parse_duration` maps every `PT#H#M#S` string (each component an
optional nonempty digit run) to its total seconds with absent components
counting 0, returns `None` on `None` input, empty input and any string not
matching the anchored pattern at all; `format_duration` renders `H:MM:SS`
when hours are positive and `M:SS` otherwise, `None` in, `None` out; and
the claim's example values hold. -/
theorem C7_duration_parse_format :
    (∀ h m s, DigitsOk h → DigitsOk m → DigitsOk s →
      parse_duration (some (ptRender h m s)) =
        some (compVal h * 3600 + compVal m * 60 + compVal s)) ∧
    parse_duration (some "PT1H2M3S") = some 3723 ∧
    parse_duration (some "PT45S") = some 45 ∧
    parse_duration (some "") = none ∧
    parse_duration none = none ∧
    (∀ s : String, ¬ (['P', 'T'] <+: s.data) → parse_duration (some s) = none) ∧
    (∀ n : Nat, 0 < n / 3600 →
      format_duration (some n) =
        some (toString (n / 3600) ++ ":" ++ pad2 (n % 3600 / 60) ++ ":" ++ pad2 (n % 3600 % 60))) ∧
    (∀ n : Nat, n / 3600 = 0 →
      format_duration (some n) = some (toString (n % 3600 / 60) ++ ":" ++ pad2 (n % 3600 % 60))) ∧
    format_duration (some 3723) = some "1:02:03" ∧
    format_duration (some 125) = some "2:05" ∧
    format_duration none = none := by
  refine ⟨?_, by decide, by decide, by decide, rfl, ?_, ?_, ?_, by decide, by decide, rfl⟩
  · intro h m s hh hm hs
    cases h with
    | none =>
      cases m with
      | none =>
        cases s with
        | none => decide
        | some d3 =>
          show parse_duration (some (String.mk ('P' :: 'T' :: ([] ++ [] ++ (d3 ++ ['S']))))) = _
          simp only [List.nil_append]
          rw [parse_duration_PT]
          rw [parseCompD_miss 'H' 'S' d3 [] hs.2 (by decide) (by decide)]
          rw [parseCompD_miss 'M' 'S' d3 [] hs.2 (by decide) (by decide)]
          rw [parseCompD_hit 'S' d3 [] hs.1 hs.2 (by decide)]
          simp [compVal]
      | some d2 =>
        cases s with
        | none =>
          show parse_duration (some (String.mk ('P' :: 'T' :: ([] ++ (d2 ++ ['M']) ++ [])))) = _
          simp only [List.nil_append, List.append_nil]
          rw [parse_duration_PT]
          rw [parseCompD_miss 'H' 'M' d2 [] hm.2 (by decide) (by decide)]
          rw [parseCompD_hit 'M' d2 [] hm.1 hm.2 (by decide)]
          rw [parseCompD_noDigits 'S' [] (by simp)]
          simp [compVal]
        | some d3 =>
          show parse_duration
              (some (String.mk ('P' :: 'T' :: ([] ++ (d2 ++ ['M']) ++ (d3 ++ ['S']))))) = _
          simp only [List.nil_append, List.append_assoc, List.singleton_append]
          rw [parse_duration_PT]
          rw [parseCompD_miss 'H' 'M' d2 (d3 ++ ['S']) hm.2 (by decide) (by decide)]
          rw [parseCompD_hit 'M' d2 (d3 ++ ['S']) hm.1 hm.2 (by decide)]
          rw [parseCompD_hit 'S' d3 [] hs.1 hs.2 (by decide)]
          simp [compVal]
    | some d1 =>
      cases m with
      | none =>
        cases s with
        | none =>
          show parse_duration (some (String.mk ('P' :: 'T' :: ((d1 ++ ['H']) ++ [] ++ [])))) = _
          simp only [List.append_nil, List.append_assoc, List.singleton_append]
          rw [parse_duration_PT]
          rw [parseCompD_hit 'H' d1 [] hh.1 hh.2 (by decide)]
          rw [parseCompD_noDigits 'M' [] (by simp)]
          rw [parseCompD_noDigits 'S' [] (by simp)]
          simp [compVal]
        | some d3 =>
          show parse_duration
              (some (String.mk ('P' :: 'T' :: ((d1 ++ ['H']) ++ [] ++ (d3 ++ ['S']))))) = _
          simp only [List.nil_append, List.append_nil, List.append_assoc, List.singleton_append]
          rw [parse_duration_PT]
          rw [parseCompD_hit 'H' d1 (d3 ++ ['S']) hh.1 hh.2 (by decide)]
          rw [parseCompD_miss 'M' 'S' d3 [] hs.2 (by decide) (by decide)]
          rw [parseCompD_hit 'S' d3 [] hs.1 hs.2 (by decide)]
          simp [compVal]
      | some d2 =>
        cases s with
        | none =>
          show parse_duration
              (some (String.mk ('P' :: 'T' :: ((d1 ++ ['H']) ++ (d2 ++ ['M']) ++ [])))) = _
          simp only [List.append_nil, List.append_assoc, List.singleton_append]
          rw [parse_duration_PT]
          rw [parseCompD_hit 'H' d1 (d2 ++ ['M']) hh.1 hh.2 (by decide)]
          rw [parseCompD_hit 'M' d2 [] hm.1 hm.2 (by decide)]
          rw [parseCompD_noDigits 'S' [] (by simp)]
          simp [compVal]
        | some d3 =>
          show parse_duration
              (some (String.mk ('P' :: 'T' ::
                ((d1 ++ ['H']) ++ (d2 ++ ['M']) ++ (d3 ++ ['S']))))) = _
          simp only [List.append_assoc, List.singleton_append, List.cons_append,
            List.nil_append]
          rw [parse_duration_PT]
          rw [parseCompD_hit 'H' d1 (d2 ++ ('M' :: (d3 ++ ['S']))) hh.1 hh.2 (by decide)]
          rw [parseCompD_hit 'M' d2 (d3 ++ ['S']) hm.1 hm.2 (by decide)]
          rw [parseCompD_hit 'S' d3 [] hs.1 hs.2 (by decide)]
          simp [compVal]
  · exact parse_duration_not_PT
  · intro n hn
    show (if n / 3600 > 0 then _ else _) = _
    rw [if_pos hn]
  · intro n hn
    show (if n / 3600 > 0 then _ else _) = _
    rw [hn]
    rfl

/-- C10.  `parse_duration` returns `None` exactly on `None`, the empty
string, and strings not beginning with the literal `PT`; every
`PT`-prefixed string yields a natural number, and when no digit occurs at
all (in particular for `"PT"` itself) that number is 0. -/
theorem C10_parse_duration_totality :
    parse_duration none = none ∧
    parse_duration (some "") = none ∧
    (∀ s : String, parse_duration (some s) = none ↔ ¬ (['P', 'T'] <+: s.data)) ∧
    (∀ s : String, ['P', 'T'] <+: s.data → ∃ n : Nat, parse_duration (some s) = some n) ∧
    parse_duration (some "PT") = some 0 ∧
    (∀ s : String, ['P', 'T'] <+: s.data → (∀ c ∈ s.data, c.isDigit = false) →
      parse_duration (some s) = some 0) := by
  have hsome : ∀ s : String, ['P', 'T'] <+: s.data → ∃ n : Nat, parse_duration (some s) = some n := by
    intro s hp
    obtain ⟨t, ht⟩ := hp
    obtain ⟨cs⟩ := s
    simp only [List.cons_append, List.nil_append] at ht
    subst ht
    exact ⟨_, parse_duration_PT t⟩
  refine ⟨rfl, by decide, ?_, hsome, by decide, ?_⟩
  · intro s
    constructor
    · intro hn hp
      obtain ⟨n, he⟩ := hsome s hp
      rw [he] at hn
      exact Option.noConfusion hn
    · exact parse_duration_not_PT s
  · intro s hp hd
    obtain ⟨t, ht⟩ := hp
    obtain ⟨cs⟩ := s
    simp only [List.cons_append, List.nil_append] at ht
    subst ht
    rw [parse_duration_PT t]
    have hdt : ∀ c ∈ t, c.isDigit = false := fun c hc => hd c (by simp [hc])
    rw [parseCompD_noDigits 'H' t hdt]
    rw [parseCompD_noDigits 'M' t hdt]
    rw [parseCompD_noDigits 'S' t hdt]
    simp

/-- Helper: back-fill equation on two or more chapters. -/
theorem chaptersBackfill_cons2 (c1 c2 : Chapter) (t : List Chapter) :
    chaptersBackfill (c1 :: c2 :: t) =
      { c1 with end_time := some c2.start_time } :: chaptersBackfill (c2 :: t) := rfl

/-- Helper: the back-fill loop does not touch titles or start times. -/
theorem chaptersBackfill_map_title_start (cs : List Chapter) :
    (chaptersBackfill cs).map (fun c => (c.title, c.start_time)) =
      cs.map (fun c => (c.title, c.start_time)) := by
  induction cs with
  | nil => rfl
  | cons c t ih =>
    cases t with
    | nil => rfl
    | cons c2 t2 =>
      simp only [chaptersBackfill, List.map_cons] at ih ⊢
      exact congrArg _ ih

/-- Helper: after back-fill, each chapter that has a successor carries the
successor's start time as its end time. -/
theorem chaptersBackfill_end_eq_next_start (cs : List Chapter) (i : Nat) (c2 : Chapter)
    (h : cs[i + 1]? = some c2) :
    ((chaptersBackfill cs)[i]?).map Chapter.end_time = some (some c2.start_time) := by
  induction cs generalizing i with
  | nil => simp at h
  | cons c1 t ih =>
    cases t with
    | nil => simp at h
    | cons ch2 t2 =>
      cases i with
      | zero =>
        rw [List.getElem?_cons_succ, List.getElem?_cons_zero] at h
        cases h
        rw [chaptersBackfill_cons2, List.getElem?_cons_zero]
        rfl
      | succ j =>
        rw [List.getElem?_cons_succ] at h
        have := ih j h
        rw [chaptersBackfill_cons2, List.getElem?_cons_succ]
        exact this

/-- Helper: when every input chapter has an unset end time, the last
chapter after back-fill still has an unset end time. -/
theorem chaptersBackfill_last_none (cs : List Chapter) (hall : ∀ x ∈ cs, x.end_time = none)
    (c : Chapter) (h : (chaptersBackfill cs).getLast? = some c) : c.end_time = none := by
  induction cs with
  | nil => exact Option.noConfusion h
  | cons c1 t ih =>
    cases t with
    | nil =>
      have hc : c = c1 := by
        have : (chaptersBackfill [c1]).getLast? = some c1 := rfl
        rw [this] at h
        exact (Option.some_inj.mp h).symm
      rw [hc]
      exact hall c1 (by simp)
    | cons c2 t2 =>
      have hcons : ∃ d l, chaptersBackfill (c2 :: t2) = d :: l := by
        cases t2 with
        | nil => exact ⟨c2, [], rfl⟩
        | cons c3 t3 => exact ⟨_, _, chaptersBackfill_cons2 c2 c3 t3⟩
      obtain ⟨d, l, hdl⟩ := hcons
      rw [chaptersBackfill_cons2, hdl, List.getLast?_cons_cons, ← hdl] at h
      exact ih (fun x hx => hall x (by simp [hx])) h

/-- Helper: every kept match candidate is built with an unset end time. -/
theorem matchChapters_end_none (cs : List Char) (c : Chapter) (h : c ∈ matchChapters cs) :
    c.end_time = none := by
  obtain ⟨m, _, hm⟩ := List.mem_filterMap.mp h
  simp only at hm
  split at hm
  · cases hm
    rfl
  · exact Option.noConfusion hm

/-- C8, counterexample to the per-line reading: the regex's whitespace
after the seconds group crosses the newline, so on `"0:30\nHello"` the
code takes `Hello` from the following line as the bare timestamp's title,
while collecting a chapter from each line on its own yields no chapter at
all. -/
theorem C8_counterexample_title_crosses_newline :
    parse_chapters_from_description "0:30\nHello" =
      [{ title := "Hello", start_time := 30, end_time := none }] ∧
    claimParseChapters "0:30\nHello" = [] ∧
    parse_chapters_from_description "0:30\nHello" ≠
      claimParseChapters "0:30\nHello" := by
  refine ⟨by decide, by decide, by decide⟩

/-- C8 (amended).  `parse_chapters_from_description` scans the whole
description rather than each line on its own: a match is anchored at the
start of the string or right after a newline, but the whitespace after
the timestamp crosses newlines, so a bare timestamp absorbs the next
non-whitespace text, even on a later line, as its title; candidates whose
stripped title is empty or a single character are skipped.  Back-fill is
as claimed: whenever chapter `i+1` exists, chapter `i`'s end time is
chapter `i+1`'s start time, the last chapter's end time is unset, and on
the claim's example with starts `[0, 30, 90]` the end times are
`[30, 90, none]`.  On `"0:30\nHello"` the single chapter is `Hello` at 30
seconds, and on `"0:30\n0:45 Real"` the single chapter is `0:45 Real` at
30 seconds: the absorbed title swallows the second timestamp. -/
theorem C8_amended_chapters_scan :
    (∀ description : String, ∀ i : Nat, ∀ c2 : Chapter,
      (parse_chapters_from_description description)[i + 1]? = some c2 →
        ((parse_chapters_from_description description)[i]?).map Chapter.end_time =
          some (some c2.start_time)) ∧
    (∀ description : String, ∀ c : Chapter,
      (parse_chapters_from_description description).getLast? = some c →
        c.end_time = none) ∧
    parse_chapters_from_description "0:00 Intro\n0:30 Body\n0:45 X\nsee 3:00 here\n1:30 Ending" =
      [{ title := "Intro", start_time := 0, end_time := some 30 },
       { title := "Body", start_time := 30, end_time := some 90 },
       { title := "Ending", start_time := 90, end_time := none }] ∧
    parse_chapters_from_description "0:30\nHello" =
      [{ title := "Hello", start_time := 30, end_time := none }] ∧
    parse_chapters_from_description "0:30\n0:45 Real" =
      [{ title := "0:45 Real", start_time := 30, end_time := none }] := by
  have hform : ∀ description : String, parse_chapters_from_description description =
      chaptersBackfill (matchChapters description.data) := by
    intro description
    unfold parse_chapters_from_description
    split
    · rename_i hd
      subst hd
      rfl
    · rfl
  refine ⟨?_, ?_, by decide, by decide, by decide⟩
  · intro description i c2 h
    rw [hform] at h ⊢
    -- transfer the successor hypothesis to the pre-back-fill list
    set cs := matchChapters description.data with hcs
    have hmap := chaptersBackfill_map_title_start cs
    have hstart : (cs[i + 1]?).map (fun c => (c.title, c.start_time)) =
        some (c2.title, c2.start_time) := by
      have : ((chaptersBackfill cs).map (fun c => (c.title, c.start_time)))[i + 1]? =
          some (c2.title, c2.start_time) := by
        rw [List.getElem?_map, h]
        rfl
      rw [hmap, List.getElem?_map] at this
      exact this
    obtain ⟨c2in, hc2in, hpair⟩ := Option.map_eq_some'.mp hstart
    have hend := chaptersBackfill_end_eq_next_start cs i c2in hc2in
    have : c2in.start_time = c2.start_time := congrArg Prod.snd hpair
    rw [hend, this]
  · intro description c h
    rw [hform] at h
    refine chaptersBackfill_last_none _ ?_ c h
    intro x hx
    exact matchChapters_end_none _ x hx

/-- Helper: the `best_for` loop's transcript entry evolves independently
of the technical and tags entries. -/
theorem updateBestFor_transcript (b : BestFor) (r : ScraperResult) :
    (updateBestFor b r).transcript = tStep b.transcript r := by
  unfold updateBestFor tStep
  cases hd : r.data
  · rfl
  · cases hs : r.success
    all_goals simp only [hs, Bool.not_true, Bool.not_false]
    all_goals try rfl
    all_goals repeat' split
    all_goals simp_all

/-- Helper: project the `best_for` fold onto its transcript component. -/
theorem foldl_updateBestFor_transcript (l : List ScraperResult) : ∀ b : BestFor,
    (l.foldl updateBestFor b).transcript = l.foldl tStep b.transcript := by
  induction l with
  | nil => intro b; rfl
  | cons r t ih =>
    intro b
    simp only [List.foldl_cons]
    rw [ih, updateBestFor_transcript]

/-- Helper: unfolding of the spec-side transcript recommendation. -/
theorem bestTranscriptSpec_cons (r : ScraperResult) (rs : List ScraperResult) :
    bestTranscriptSpec (r :: rs) =
      (match bestTranscriptSpec rs with
        | none =>
          if r.success && r.data.isSome && decide (0 < transcriptCount r) then
            some ⟨r.method, transcriptCount r⟩
          else none
        | some b =>
          if (r.success && r.data.isSome && decide (0 < transcriptCount r)) &&
              decide (b.count ≤ transcriptCount r) then
            some ⟨r.method, transcriptCount r⟩
          else some b) := rfl

/-- Helper: one step of the code's fold agrees with one step of the
spec-side recursion, through the merge of the accumulated entry. -/
theorem mergeAcc_tStep (t0 : Option BestCount) (r : ScraperResult) (s : Option BestCount) :
    mergeAcc (tStep t0 r) s =
      mergeAcc t0 (match s with
        | none =>
          if r.success && r.data.isSome && decide (0 < transcriptCount r) then
            some ⟨r.method, transcriptCount r⟩
          else none
        | some b =>
          if (r.success && r.data.isSome && decide (0 < transcriptCount r)) &&
              decide (b.count ≤ transcriptCount r) then
            some ⟨r.method, transcriptCount r⟩
          else some b) := by
  cases hd : r.data <;> cases hs : r.success <;> cases t0 <;> cases s <;>
    simp [tStep, mergeAcc, hd, hs, transcriptCount] <;>
    split_ifs <;> simp_all [mergeAcc] <;>
    split_ifs <;> simp_all <;> omega

/-- Helper: the code's fold equals the spec-side recursion merged with the
initial accumulator. -/
theorem foldl_tStep_eq_spec (l : List ScraperResult) : ∀ t0 : Option BestCount,
    l.foldl tStep t0 = mergeAcc t0 (bestTranscriptSpec l) := by
  induction l with
  | nil => intro t0; cases t0 <;> rfl
  | cons r rs ih =>
    intro t0
    simp only [List.foldl_cons]
    rw [ih (tStep t0 r), mergeAcc_tStep, bestTranscriptSpec_cons]

/-- Helper: the failed-methods fold is the filtered map. -/
theorem foldl_methods_failed (l : List ScraperResult) :
    ∀ acc : List (String × Option String),
    l.foldl (fun acc r => if r.success then acc else acc ++ [(r.method, r.error)]) acc =
      acc ++ (l.filter fun r => !r.success).map fun r => (r.method, r.error) := by
  induction l with
  | nil => intro acc; simp
  | cons r t ih =>
    intro acc
    simp only [List.foldl_cons, List.filter_cons]
    cases hs : r.success <;> simp [hs, ih]

/-- C3.  The comparison summary's `methods_failed` holds exactly one
`(method, error)` pair per failed envelope, in order, and none for
successful ones; `best_for.transcript` is the first-evaluated successful
envelope whose transcript has the strictly largest segment count (ties to
the earlier envelope, envelopes with empty transcripts never compete); and
on the claim's example — A with 50 segments, B with 10, C failed —
`best_for.transcript.method` is A with count 50 and `methods_failed` holds
exactly C's entry. -/
theorem C3_comparison_summary :
    (∀ results : List ScraperResult,
      (generate_comparison_summary results).methods_failed =
        (results.filter fun r => !r.success).map fun r => (r.method, r.error)) ∧
    (∀ results : List ScraperResult,
      (generate_comparison_summary results).best_for.transcript = bestTranscriptSpec results) ∧
    ((generate_comparison_summary [exEnvA, exEnvB, exEnvC]).best_for.transcript =
      some { method := "A", count := 50 }) ∧
    ((generate_comparison_summary [exEnvA, exEnvB, exEnvC]).methods_failed =
      [("C", some "failed to fetch")]) := by
  refine ⟨?_, ?_, by decide, by decide⟩
  · intro results
    have hproj : (generate_comparison_summary results).methods_failed =
        results.foldl (fun acc r => if r.success then acc else acc ++ [(r.method, r.error)]) [] :=
      rfl
    rw [hproj, foldl_methods_failed]
    simp
  · intro results
    have hproj : (generate_comparison_summary results).best_for =
        results.foldl updateBestFor {} := rfl
    rw [hproj, foldl_updateBestFor_transcript, foldl_tStep_eq_spec]
    show mergeAcc none (bestTranscriptSpec results) = bestTranscriptSpec results
    cases bestTranscriptSpec results <;> rfl

/-- Helper: a successful scan splits the input at the match position. -/
theorem searchPat_some (alts : List (List Char)) (l : List Char) (g : List Char)
    (h : searchPat alts l = some g) :
    ∃ pre suf, l = pre ++ suf ∧ matchAltsAt alts suf = some g := by
  induction l with
  | nil => exact ⟨[], [], rfl, h⟩
  | cons c cs ih =>
    unfold searchPat at h
    split at h
    · rename_i g2 heq
      cases h
      exact ⟨[], c :: cs, rfl, heq⟩
    · obtain ⟨pre, suf, hsplit, hm⟩ := ih h
      exact ⟨c :: pre, suf, by rw [hsplit, List.cons_append], hm⟩

/-- Helper: a successful alternative match names a marker that prefixes
the position, with the capture right after it. -/
theorem matchAltsAt_some (alts : List (List Char)) (suf g : List Char)
    (h : matchAltsAt alts suf = some g) :
    ∃ m ∈ alts, ∃ rest, suf = m ++ rest ∧ capture11 rest = some g := by
  induction alts with
  | nil => exact Option.noConfusion h
  | cons m alts' ih =>
    unfold matchAltsAt at h
    split at h
    · rename_i hpre
      split at h
      · rename_i g2 heq
        cases h
        obtain ⟨rest, hrest⟩ := List.isPrefixOf_iff_prefix.mp hpre
        refine ⟨m, by simp, rest, hrest.symm, ?_⟩
        rw [← heq, ← hrest, List.drop_left]
      · obtain ⟨m2, hm2, rest, hr, hc⟩ := ih h
        exact ⟨m2, by simp [hm2], rest, hr, hc⟩
    · obtain ⟨m2, hm2, rest, hr, hc⟩ := ih h
      exact ⟨m2, by simp [hm2], rest, hr, hc⟩

/-- Helper: a capture is 11 id-characters and a prefix of its input. -/
theorem capture11_some (cs g : List Char) (h : capture11 cs = some g) :
    g.length = 11 ∧ g.all idChar = true ∧ ∃ b, cs = g ++ b := by
  unfold capture11 at h
  split at h
  · rename_i hcond
    cases h
    simp only [Bool.and_eq_true, decide_eq_true_eq] at hcond
    exact ⟨hcond.1, hcond.2, cs.drop 11, (List.take_append_drop 11 cs).symm⟩
  · exact Option.noConfusion h

/-- Helper: an 11-character id-token right after the position is captured. -/
theorem capture11_complete (v b : List Char) (hlen : v.length = 11)
    (hall : v.all idChar = true) : capture11 (v ++ b) = some v := by
  unfold capture11
  have ht : (v ++ b).take 11 = v := by
    rw [← hlen]
    exact List.take_left v b
  rw [ht]
  simp [hlen, hall]

/-- Helper: an alternative that matches makes the whole position match. -/
theorem matchAltsAt_complete (alts : List (List Char)) (suf : List Char) (m : List Char)
    (hm : m ∈ alts) (rest : List Char) (hsuf : suf = m ++ rest)
    (hc : (capture11 rest).isSome = true) : (matchAltsAt alts suf).isSome = true := by
  induction alts with
  | nil => exact absurd hm (by simp)
  | cons m0 alts' ih =>
    unfold matchAltsAt
    rcases List.mem_cons.mp hm with hm0 | hm'
    · subst hm0
      have hpre : m.isPrefixOf suf = true :=
        List.isPrefixOf_iff_prefix.mpr ⟨rest, hsuf.symm⟩
      rw [if_pos hpre]
      split
      · rfl
      · rename_i hnone
        rw [hsuf, List.drop_left] at hnone
        rw [hnone] at hc
        simp at hc
    · split
      · split
        · rfl
        · exact ih hm'
      · exact ih hm'

/-- Helper: a match at some position makes the whole scan match. -/
theorem searchPat_complete (alts : List (List Char)) (pre suf : List Char)
    (h : (matchAltsAt alts suf).isSome = true) :
    (searchPat alts (pre ++ suf)).isSome = true := by
  induction pre with
  | nil =>
    cases suf with
    | nil => exact h
    | cons c cs =>
      show (searchPat alts (c :: cs)).isSome = true
      unfold searchPat
      split
      · rfl
      · rename_i hnone
        rw [hnone] at h
        simp at h
  | cons p pre' ih =>
    show (searchPat alts (p :: (pre' ++ suf))).isSome = true
    unfold searchPat
    split
    · rfl
    · exact ih

/-- Helper: any successful scan of one of the three patterns yields a
candidate id of the url. -/
theorem searchPat_candidate (alts : List (List Char)) (url : String) (g : List Char)
    (halts : ∀ m ∈ alts,
      m ∈ ["v=".data, "/v/".data, "youtu.be/".data, "embed/".data, "shorts/".data])
    (h : searchPat alts url.data = some g) : IsCandidate url (String.mk g) := by
  obtain ⟨pre, suf, hsplit, hm⟩ := searchPat_some alts url.data g h
  obtain ⟨m, hmem, rest, hrest, hcap⟩ := matchAltsAt_some alts suf g hm
  obtain ⟨hlen, hall, b, hb⟩ := capture11_some rest g hcap
  refine ⟨hlen, hall, m, halts m hmem, pre, b, ?_⟩
  have hvdata : (String.mk g).data = g := rfl
  simp [hsplit, hrest, hb, hvdata, List.append_assoc]

/-- C6.  `extract_video_id` returns `some v` only when `v` is a valid
11-character id occurring right after one of the five supported markers in
the url; whenever such a candidate exists it returns one (and when the
candidate id is unique, that one); when no shape occurs it returns `None`;
and the claim's concrete examples hold. -/
theorem C6_extract_video_id :
    (∀ url v, extract_video_id url = some v → IsCandidate url v) ∧
    (∀ url, HasCandidate url → (extract_video_id url).isSome = true) ∧
    (∀ url, ¬ HasCandidate url → extract_video_id url = none) ∧
    (∀ url v0, IsCandidate url v0 → (∀ v, IsCandidate url v → v = v0) →
      extract_video_id url = some v0) ∧
    extract_video_id "https://youtu.be/dQw4w9WgXcQ" = some "dQw4w9WgXcQ" ∧
    extract_video_id "https://www.youtube.com/watch?v=dQw4w9WgXcQ" = some "dQw4w9WgXcQ" ∧
    extract_video_id "https://example.com/" = none := by
  have halts1 : ∀ m ∈ pat1Alts,
      m ∈ ["v=".data, "/v/".data, "youtu.be/".data, "embed/".data, "shorts/".data] := by
    intro m hm
    fin_cases hm <;> simp
  have halts2 : ∀ m ∈ patEmbedAlts,
      m ∈ ["v=".data, "/v/".data, "youtu.be/".data, "embed/".data, "shorts/".data] := by
    intro m hm
    fin_cases hm
    simp
  have halts3 : ∀ m ∈ patShortsAlts,
      m ∈ ["v=".data, "/v/".data, "youtu.be/".data, "embed/".data, "shorts/".data] := by
    intro m hm
    fin_cases hm
    simp
  have hsound : ∀ url v, extract_video_id url = some v → IsCandidate url v := by
    intro url v h
    unfold extract_video_id at h
    split at h
    · rename_i g h1
      cases h
      exact searchPat_candidate pat1Alts url g halts1 h1
    · split at h
      · rename_i g h2
        cases h
        exact searchPat_candidate patEmbedAlts url g halts2 h2
      · split at h
        · rename_i g h3
          cases h
          exact searchPat_candidate patShortsAlts url g halts3 h3
        · exact Option.noConfusion h
  have hcomplete : ∀ url, HasCandidate url → (extract_video_id url).isSome = true := by
    intro url hcand
    obtain ⟨v, hlen, hall, m, hmem, a, b, hurl⟩ := hcand
    have hcap : (capture11 (v.data ++ b)).isSome = true := by
      rw [capture11_complete v.data b hlen hall]
      rfl
    have hone : ∀ alts, m ∈ alts → (searchPat alts url.data).isSome = true := by
      intro alts hma
      have hmm : (matchAltsAt alts (m ++ (v.data ++ b))).isSome = true :=
        matchAltsAt_complete alts (m ++ (v.data ++ b)) m hma (v.data ++ b) rfl hcap
      have hurl2 : url.data = a ++ (m ++ (v.data ++ b)) := by
        rw [hurl]
        simp [List.append_assoc]
      rw [hurl2]
      exact searchPat_complete alts a (m ++ (v.data ++ b)) hmm
    unfold extract_video_id
    cases hx1 : searchPat pat1Alts url.data with
    | some g => rfl
    | none =>
      cases hx2 : searchPat patEmbedAlts url.data with
      | some g => rfl
      | none =>
        cases hx3 : searchPat patShortsAlts url.data with
        | some g => rfl
        | none =>
          exfalso
          simp only [List.mem_cons, List.not_mem_nil, or_false] at hmem
          rcases hmem with h | h | h | h | h
          · have := hone pat1Alts (by simp [pat1Alts, h])
            rw [hx1] at this
            simp at this
          · have := hone pat1Alts (by simp [pat1Alts, h])
            rw [hx1] at this
            simp at this
          · have := hone pat1Alts (by simp [pat1Alts, h])
            rw [hx1] at this
            simp at this
          · have := hone patEmbedAlts (by simp [patEmbedAlts, h])
            rw [hx2] at this
            simp at this
          · have := hone patShortsAlts (by simp [patShortsAlts, h])
            rw [hx3] at this
            simp at this
  refine ⟨hsound, hcomplete, ?_, ?_, by decide, by decide, by decide⟩
  · intro url hno
    cases hx : extract_video_id url with
    | none => rfl
    | some v => exact absurd ⟨v, hsound url v hx⟩ hno
  · intro url v0 hv0 huniq
    have := hcomplete url ⟨v0, hv0⟩
    cases hx : extract_video_id url with
    | none =>
      rw [hx] at this
      simp at this
    | some v =>
      exact congrArg some (huniq v (hsound url v hx))

end YTS
